import Mathlib

/-! Library catalog service.

A shallow embedding of the request path of the library catalog service:

* `internal/entities`      : `Book`, `BookRequest`, `BookResponse`, the error sentinels;
* `internal/models/book`   : the storage component `book` over a gorm connection;
* `internal/services`      : the catalog service over the storage interface;
* `internal/handlers/v1`   : the HTTP handlers over the service interface.

Each layer of the Go code talks to the layer below through an interface, and the
embedding keeps that shape: an interface is a structure of operations over a state
type, and a layer is a family of functions parameterised by the structure below it.
Go's `(T, error)` results are `Except GoError T`, a lone `error` is `Option GoError`
(`none` is `nil`).  The `context.Context` argument is passed along by every function
of the repository and read by none, so it is left out.
-/

namespace Library

/-! ## Values of the libraries -/

/-- Value of type `uuid.UUID` (sixteen bytes), kept as the number the bytes spell. -/
structure UUID where
  val : Nat
deriving DecidableEq, Repr

/-- The zero value `uuid.Nil`. -/
def UUID.Nil : UUID := ⟨0⟩

/-- A `time.Time` value, counted in nanoseconds from the zero instant, so that the
zero value `time.Time{}` is `0`.  Only the instant is kept: the location a
`time.Time` also carries is not modelled, so the zero instant in any location is the
zero value here. -/
abbrev Time := Int

/-- A Go slice value: `none` is the nil slice, `some xs` a non-nil slice with the
elements `xs`. -/
abbrev Slice (α : Type) := Option (List α)

/-- The builtin `len` on slices. -/
def Slice.len {α : Type} : Slice α → Nat
  | none => 0
  | some xs => xs.length

/-- The elements a `range` loop over the slice visits, in order. -/
def Slice.elems {α : Type} : Slice α → List α
  | none => []
  | some xs => xs

/-- One entry of a `validator.ValidationErrors` value: the field and the tag that failed. -/
structure FieldError where
  Field : String
  Tag : String
deriving DecidableEq, Repr

/-- A Go `error` value.  What `==` on two errors compares is the identity of the
allocation, so the package-level sentinels are constructors of their own and the
value of an `errors.New` call evaluated inside a function body (`New`) is a different
value from every sentinel, whatever its text.  Two evaluations of `errors.New` are
distinct values in Go as well; the repository never compares two of them, so they are
not numbered here. -/
inductive GoError where
  /-- The sentinel `entities.ErrBookNotFound`. -/
  | ErrBookNotFound
  /-- The sentinel `entities.ErrUserNotFound`. -/
  | ErrUserNotFound
  /-- The sentinel `entities.ErrInvalidCredentials`. -/
  | ErrInvalidCredentials
  /-- The sentinel `gorm.ErrRecordNotFound`. -/
  | ErrRecordNotFound
  /-- The value of `errors.New(text)` evaluated at call time. -/
  | New (text : String)
  /-- An error produced by a library (driver, decoder, parser) with its text. -/
  | lib (text : String)
  /-- The value of `validator.ValidationErrors`. -/
  | validation (errs : List FieldError)
  /-- The value of `fmt.Errorf(text + ": %w", inner)`. -/
  | wrap (text : String) (inner : GoError)
deriving DecidableEq, Repr

/-- The apostrophe the validator puts around names in its messages. -/
def quote : String := String.singleton (Char.ofNat 39)

/-- The text of one `validator.FieldError`. -/
def FieldError.Error (fe : FieldError) : String :=
  "Key: " ++ quote ++ "BookRequest." ++ fe.Field ++ quote ++ " Error:Field validation for "
    ++ quote ++ fe.Field ++ quote ++ " failed on the " ++ quote ++ fe.Tag ++ quote ++ " tag"

/-- The method `Error()` of an error value. -/
def GoError.Error : GoError → String
  | .ErrBookNotFound => "book not found"
  | .ErrUserNotFound => "user not found"
  | .ErrInvalidCredentials => "invalid credentials"
  | .ErrRecordNotFound => "record not found"
  | .New text => text
  | .lib text => text
  | .validation errs => "\n".intercalate (errs.map FieldError.Error)
  | .wrap text inner => text ++ ": " ++ inner.Error

/-- The function `errors.Is`: the error itself or one it wraps is the target. -/
def errorsIs : GoError → GoError → Bool
  | .wrap text inner, target => decide (GoError.wrap text inner = target) || errorsIs inner target
  | e, target => decide (e = target)

/-! ## Entities (`internal/entities/book.go`) -/

/-- The persisted entity `entities.Book`. -/
structure Book where
  ID : UUID
  CreatedAt : Time
  UpdatedAt : Time
  DeletedAt : Time
  Title : String
  Author : String
  ISBN : String
  Publisher : String
  PublishDate : Time
  Description : String
  Copies : Int
deriving DecidableEq, Repr

/-- The zero value `entities.Book{}`. -/
def Book.zero : Book :=
  { ID := UUID.Nil, CreatedAt := 0, UpdatedAt := 0, DeletedAt := 0, Title := "", Author := "",
    ISBN := "", Publisher := "", PublishDate := 0, Description := "", Copies := 0 }

/-- The request projection `entities.BookRequest`. -/
structure BookRequest where
  Title : String
  Author : String
  ISBN : String
  Publisher : String
  PublishDate : Time
  Description : String
  Copies : Int
deriving DecidableEq, Repr

/-- The response projection `entities.BookResponse`. -/
structure BookResponse where
  ID : UUID
  Title : String
  Author : String
  ISBN : String
  Publisher : String
  PublishDate : Time
  Description : String
  Copies : Int
  CreatedAt : Time
  UpdatedAt : Time
deriving DecidableEq, Repr

/-! ## The gorm connection -/

/-- The fields of `*gorm.DB` the repository reads after a call. -/
structure Result where
  Error : Option GoError
  RowsAffected : Int
deriving DecidableEq, Repr

/-- The calls the repository makes on `*gorm.DB`, as operations on a store state `δ`.
The relational engine behind them is outside the repository. -/
structure DB (δ : Type) where
  /-- The call `db.Create(book)`. -/
  Create : Book → δ → Result × δ
  /-- The call `db.Where("id = ?", id).First(&book)`; the entity is the variable `book` after the call. -/
  First : UUID → δ → (Book × Result) × δ
  /-- The call `db.Find(&books)`; the slice is the variable `books` after the call. -/
  Find : δ → (Slice Book × Result) × δ
  /-- The call `db.Save(book)`. -/
  Save : Book → δ → Result × δ
  /-- The call `db.Delete(&entities.Book{}, "id = ?", id)`. -/
  Delete : UUID → δ → Result × δ
  /-- The call `db.Model(&entities.Book{}).Count(&count)`; the number is `count` after the call. -/
  Count : δ → (Int × Result) × δ
  /-- The call `db.Create(&books)` on a slice. -/
  CreateAll : List Book → δ → Result × δ

/-- One call on the connection, with its argument. -/
inductive DBCall where
  | Create (b : Book)
  | First (id : UUID)
  | Find
  | Save (b : Book)
  | Delete (id : UUID)
  | Count
  | CreateAll (bs : List Book)
deriving DecidableEq, Repr

/-- The connection `g` with a journal: every call is appended to the journal with its
argument and then carried out by `g`. -/
def DB.traced {δ : Type} (g : DB δ) : DB (δ × List DBCall) where
  Create b s := ((g.Create b s.1).1, ((g.Create b s.1).2, s.2 ++ [DBCall.Create b]))
  First id s := ((g.First id s.1).1, ((g.First id s.1).2, s.2 ++ [DBCall.First id]))
  Find s := ((g.Find s.1).1, ((g.Find s.1).2, s.2 ++ [DBCall.Find]))
  Save b s := ((g.Save b s.1).1, ((g.Save b s.1).2, s.2 ++ [DBCall.Save b]))
  Delete id s := ((g.Delete id s.1).1, ((g.Delete id s.1).2, s.2 ++ [DBCall.Delete id]))
  Count s := ((g.Count s.1).1, ((g.Count s.1).2, s.2 ++ [DBCall.Count]))
  CreateAll bs s := ((g.CreateAll bs s.1).1, ((g.CreateAll bs s.1).2, s.2 ++ [DBCall.CreateAll bs]))

/-- What the storage component works in: the store behind the connection, the clock
behind `time.Now()` and the generator behind `uuid.NewV4()`.  The clock and the
generator are given by what their successive calls return. -/
structure Env (δ : Type) where
  db : δ
  clock : Nat → Time
  clockReads : Nat
  uuids : Nat → UUID × Option GoError
  uuidReads : Nat

/-- The call `time.Now()`: the next reading of the clock. -/
def timeNow {δ : Type} (w : Env δ) : Time × Env δ :=
  (w.clock w.clockReads, { w with clockReads := w.clockReads + 1 })

/-- The call `uuid.NewV4()`: the next result of the generator. -/
def uuidNewV4 {δ : Type} (w : Env δ) : (UUID × Option GoError) × Env δ :=
  (w.uuids w.uuidReads, { w with uuidReads := w.uuidReads + 1 })

/-! ## Storage component (`internal/models/book/book.go`) -/

/-- The interface `book.Book` of the storage component, over a state `σ`.
`Create` and `Update` take the entity by pointer in Go; what they return here is the
error. -/
structure BookModel (σ : Type) where
  Create : Book → σ → Option GoError × σ
  GetByID : UUID → σ → Except GoError Book × σ
  GetAll : σ → Except GoError (Slice Book) × σ
  Update : Book → σ → Option GoError × σ
  Delete : UUID → σ → Option GoError × σ

/-- The method `(*book).Create`. -/
def book.Create {δ : Type} (g : DB δ) (book : Book) (w : Env δ) : Option GoError × Env δ :=
  let (id, w) := uuidNewV4 w
  let book := { book with ID := id.1 }
  let (now, w) := timeNow w
  let book := { book with CreatedAt := now }
  let (now, w) := timeNow w
  let book := { book with UpdatedAt := now }
  let (result, d) := g.Create book w.db
  (result.Error, { w with db := d })

/-- The method `(*book).GetByID`. -/
def book.GetByID {δ : Type} (g : DB δ) (id : UUID) (w : Env δ) : Except GoError Book × Env δ :=
  let ((book, result), d) := g.First id w.db
  let w := { w with db := d }
  match result.Error with
  | some e =>
    if errorsIs e GoError.ErrRecordNotFound then
      (Except.error (GoError.New "book not found"), w)
    else
      (Except.error e, w)
  | none => (Except.ok book, w)

/-- The method `(*book).GetAll`. -/
def book.GetAll {δ : Type} (g : DB δ) (w : Env δ) : Except GoError (Slice Book) × Env δ :=
  let ((books, result), d) := g.Find w.db
  let w := { w with db := d }
  match result.Error with
  | some e => (Except.error e, w)
  | none => (Except.ok books, w)

/-- The method `(*book).Update`. -/
def book.Update {δ : Type} (g : DB δ) (book : Book) (w : Env δ) : Option GoError × Env δ :=
  let (now, w) := timeNow w
  let book := { book with UpdatedAt := now }
  let (result, d) := g.Save book w.db
  let w := { w with db := d }
  match result.Error with
  | some e => (some e, w)
  | none =>
    if result.RowsAffected = 0 then
      (some (GoError.New "book not found"), w)
    else
      (none, w)

/-- The method `(*book).Delete`. -/
def book.Delete {δ : Type} (g : DB δ) (id : UUID) (w : Env δ) : Option GoError × Env δ :=
  let (result, d) := g.Delete id w.db
  let w := { w with db := d }
  match result.Error with
  | some e => (some e, w)
  | none =>
    if result.RowsAffected = 0 then
      (some (GoError.New "book not found"), w)
    else
      (none, w)

/-- The constructor `book.New`: the storage component over the connection `g`. -/
def book.New {δ : Type} (g : DB δ) : BookModel (Env δ) where
  Create := book.Create g
  GetByID := book.GetByID g
  GetAll := book.GetAll g
  Update := book.Update g
  Delete := book.Delete g

/-- One call on the storage interface, with its argument. -/
inductive ModelCall where
  | Create (b : Book)
  | GetByID (id : UUID)
  | GetAll
  | Update (b : Book)
  | Delete (id : UUID)
deriving DecidableEq, Repr

/-- The storage component `m` with a journal: every call is appended to the journal
with its argument and then carried out by `m`. -/
def BookModel.traced {σ : Type} (m : BookModel σ) : BookModel (σ × List ModelCall) where
  Create b s := ((m.Create b s.1).1, ((m.Create b s.1).2, s.2 ++ [ModelCall.Create b]))
  GetByID id s := ((m.GetByID id s.1).1, ((m.GetByID id s.1).2, s.2 ++ [ModelCall.GetByID id]))
  GetAll s := ((m.GetAll s.1).1, ((m.GetAll s.1).2, s.2 ++ [ModelCall.GetAll]))
  Update b s := ((m.Update b s.1).1, ((m.Update b s.1).2, s.2 ++ [ModelCall.Update b]))
  Delete id s := ((m.Delete id s.1).1, ((m.Delete id s.1).2, s.2 ++ [ModelCall.Delete id]))

/-! ## Catalog service (`internal/services`) -/

/-- The interface `services.Service`, over a state `σ`.  The elements of the slice
`[]*entities.BookResponse` are pointers: `none` is a nil element. -/
structure Service (σ : Type) where
  CreateBook : BookRequest → σ → Option GoError × σ
  GetBookByID : UUID → σ → Except GoError BookResponse × σ
  GetAllBooks : σ → Except GoError (Slice (Option BookResponse)) × σ
  UpdateBook : UUID → BookRequest → σ → Option GoError × σ
  DeleteBook : UUID → σ → Option GoError × σ

/-- The method `(*service).CreateBook`. -/
def service.CreateBook {σ : Type} (m : BookModel σ) (req : BookRequest) (s : σ) :
    Option GoError × σ :=
  let book : Book :=
    { Book.zero with
      Title := req.Title
      Author := req.Author
      ISBN := req.ISBN
      Publisher := req.Publisher
      PublishDate := req.PublishDate
      Description := req.Description
      Copies := req.Copies }
  let (err, s) := m.Create book s
  match err with
  | some e => (some e, s)
  | none => (none, s)

/-- The method `(*service).GetBookByID`. -/
def service.GetBookByID {σ : Type} (m : BookModel σ) (id : UUID) (s : σ) :
    Except GoError BookResponse × σ :=
  let (r, s) := m.GetByID id s
  match r with
  | Except.error err => (Except.error err, s)
  | Except.ok book =>
    (Except.ok
      { ID := book.ID
        Title := book.Title
        Author := book.Author
        ISBN := book.ISBN
        Publisher := book.Publisher
        PublishDate := book.PublishDate
        Description := book.Description
        Copies := book.Copies
        CreatedAt := book.CreatedAt
        UpdatedAt := book.UpdatedAt }, s)

/-- The body of the `for i, book := range books` loop of `GetAllBooks`: the
assignment `resp[i] = &entities.BookResponse{...}`. -/
def service.GetAllBooks.body (resp : List (Option BookResponse)) (ib : Nat × Book) :
    List (Option BookResponse) :=
  resp.set ib.1
    (some
      { ID := ib.2.ID
        Title := ib.2.Title
        Author := ib.2.Author
        ISBN := ib.2.ISBN
        Publisher := ib.2.Publisher
        PublishDate := ib.2.PublishDate
        Description := ib.2.Description
        Copies := ib.2.Copies
        CreatedAt := ib.2.CreatedAt
        UpdatedAt := ib.2.UpdatedAt })

/-- The method `(*service).GetAllBooks`: `make` gives a non-nil slice of `len(books)`
nil pointers, and the loop assigns the positions one after the other. -/
def service.GetAllBooks {σ : Type} (m : BookModel σ) (s : σ) :
    Except GoError (Slice (Option BookResponse)) × σ :=
  let (r, s) := m.GetAll s
  match r with
  | Except.error err => (Except.error err, s)
  | Except.ok books =>
    let resp : List (Option BookResponse) := List.replicate (Slice.len books) none
    let resp := (Slice.elems books).enum.foldl service.GetAllBooks.body resp
    (Except.ok (some resp), s)

/-- The method `(*service).UpdateBook`. -/
def service.UpdateBook {σ : Type} (m : BookModel σ) (id : UUID) (req : BookRequest) (s : σ) :
    Option GoError × σ :=
  let (r, s) := m.GetByID id s
  match r with
  | Except.error err => (some err, s)
  | Except.ok existingBook =>
    let existingBook := { existingBook with Title := req.Title }
    let existingBook := { existingBook with Author := req.Author }
    let existingBook := { existingBook with ISBN := req.ISBN }
    let existingBook := { existingBook with Publisher := req.Publisher }
    let existingBook := { existingBook with PublishDate := req.PublishDate }
    let existingBook := { existingBook with Description := req.Description }
    let existingBook := { existingBook with Copies := req.Copies }
    let (err, s) := m.Update existingBook s
    match err with
    | some e => (some e, s)
    | none => (none, s)

/-- The method `(*service).DeleteBook`. -/
def service.DeleteBook {σ : Type} (m : BookModel σ) (id : UUID) (s : σ) : Option GoError × σ :=
  let (err, s) := m.Delete id s
  match err with
  | some e => (some e, s)
  | none => (none, s)

/-- The constructor `services.New`: the service over the storage component `m`. -/
def service.New {σ : Type} (m : BookModel σ) : Service σ where
  CreateBook := service.CreateBook m
  GetBookByID := service.GetBookByID m
  GetAllBooks := service.GetAllBooks m
  UpdateBook := service.UpdateBook m
  DeleteBook := service.DeleteBook m

/-- One call on the service interface, with its arguments. -/
inductive ServiceCall where
  | CreateBook (req : BookRequest)
  | GetBookByID (id : UUID)
  | GetAllBooks
  | UpdateBook (id : UUID) (req : BookRequest)
  | DeleteBook (id : UUID)
deriving DecidableEq, Repr

/-- The service `sv` with a journal: every call is appended to the journal with its
arguments and then carried out by `sv`. -/
def Service.traced {σ : Type} (sv : Service σ) : Service (σ × List ServiceCall) where
  CreateBook req s :=
    ((sv.CreateBook req s.1).1, ((sv.CreateBook req s.1).2, s.2 ++ [ServiceCall.CreateBook req]))
  GetBookByID id s :=
    ((sv.GetBookByID id s.1).1, ((sv.GetBookByID id s.1).2, s.2 ++ [ServiceCall.GetBookByID id]))
  GetAllBooks s :=
    ((sv.GetAllBooks s.1).1, ((sv.GetAllBooks s.1).2, s.2 ++ [ServiceCall.GetAllBooks]))
  UpdateBook id req s :=
    ((sv.UpdateBook id req s.1).1,
      ((sv.UpdateBook id req s.1).2, s.2 ++ [ServiceCall.UpdateBook id req]))
  DeleteBook id s :=
    ((sv.DeleteBook id s.1).1, ((sv.DeleteBook id s.1).2, s.2 ++ [ServiceCall.DeleteBook id]))

/-! ## Structural validation (`validate` tags of `entities.BookRequest`) -/

/-- The value of a struct field as the validator sees it. -/
inductive FieldValue where
  | str (s : String)
  | int (n : Int)
  | time (t : Time)
deriving DecidableEq, Repr

/-- The validation tags the repository uses. -/
inductive Tag where
  | required
  | min (k : Int)
deriving DecidableEq, Repr

/-- The name of a tag as it appears in a validation error. -/
def Tag.name : Tag → String
  | Tag.required => "required"
  | Tag.min _ => "min"

/-- Whether a value passes a tag, as go-playground/validator documents its tags:
`required` holds when the value is not the zero value of its type (a non-empty
string, a number other than 0, a time other than the zero time); `min=k` holds for a
number that is at least `k` and for a string of at least `k` characters.  No time
field of the repository carries `min`; that case is closed with `false`.  A time is
taken by its instant (see `Time`), so `required` on a time field is the test that the
instant is not the zero instant. -/
def Tag.holds : Tag → FieldValue → Bool
  | Tag.required, FieldValue.str s => decide (s ≠ "")
  | Tag.required, FieldValue.int n => decide (n ≠ 0)
  | Tag.required, FieldValue.time t => decide (t ≠ 0)
  | Tag.min k, FieldValue.int n => decide (k ≤ n)
  | Tag.min k, FieldValue.str s => decide (k ≤ (s.length : Int))
  | Tag.min _, FieldValue.time _ => false

/-- The fields of `entities.BookRequest` in declaration order, each with its value and
the tags of its `validate` key. -/
def BookRequest.fields (req : BookRequest) : List (String × FieldValue × List Tag) :=
  [ ("Title", FieldValue.str req.Title, [Tag.required]),
    ("Author", FieldValue.str req.Author, [Tag.required]),
    ("ISBN", FieldValue.str req.ISBN, [Tag.required]),
    ("Publisher", FieldValue.str req.Publisher, [Tag.required]),
    ("PublishDate", FieldValue.time req.PublishDate, [Tag.required]),
    ("Description", FieldValue.str req.Description, []),
    ("Copies", FieldValue.int req.Copies, [Tag.required, Tag.min 0]) ]

/-- The first tag of a field that its value fails: the validator runs the tags of a
field in order and stops at the first failure. -/
def firstFailing (v : FieldValue) : List Tag → Option Tag
  | [] => none
  | t :: ts => if t.holds v then firstFailing v ts else some t

/-- The call `h.Validate.Struct(req)`: one error per failing field, `nil` when every
field passes. -/
def Validate.Struct (req : BookRequest) : Option GoError :=
  let errs := req.fields.filterMap fun f =>
    (firstFailing f.2.1 f.2.2).map fun t => ({ Field := f.1, Tag := t.name } : FieldError)
  if errs.isEmpty then none else some (GoError.validation errs)

/-! ## Request handlers (`internal/handlers/v1/book.go`) -/

/-- The status codes of `net/http` the handlers use. -/
abbrev http.StatusOK : Nat := 200

/-- The status `http.StatusCreated`. -/
abbrev http.StatusCreated : Nat := 201

/-- The status `http.StatusNoContent`. -/
abbrev http.StatusNoContent : Nat := 204

/-- The status `http.StatusBadRequest`. -/
abbrev http.StatusBadRequest : Nat := 400

/-- The status `http.StatusNotFound`. -/
abbrev http.StatusNotFound : Nat := 404

/-- The status `http.StatusInternalServerError`. -/
abbrev http.StatusInternalServerError : Nat := 500

/-- What a handler reads of `*http.Request`: the path variable `mux.Vars(r)["id"]`
and the body. -/
structure Request where
  id : String
  Body : String
deriving DecidableEq, Repr

/-- What a handler wrote to the `http.ResponseWriter`: nothing, a text, or the value
it handed to the JSON encoder. -/
inductive Payload where
  | empty
  | text (s : String)
  | jsonBook (b : BookResponse)
  | jsonBooks (bs : Slice (Option BookResponse))
deriving DecidableEq, Repr

/-- The response a handler leaves behind: status, `Content-Type` header, body. -/
structure Response where
  status : Nat
  contentType : Option String
  body : Payload
deriving DecidableEq, Repr

/-- The function `http.Error`: the message and a newline as plain text under the given status. -/
def http.Error (error : String) (code : Nat) : Response :=
  { status := code, contentType := some "text/plain; charset=utf-8", body := Payload.text (error ++ "\n") }

/-- The call `w.WriteHeader(code)` with nothing written after it. -/
def WriteHeader (code : Nat) : Response :=
  { status := code, contentType := none, body := Payload.empty }

/-- The library functions the handlers call on the request: `uuid.FromString` on the
path variable and `json.NewDecoder(r.Body).Decode(&req)` on the body. -/
structure Codec where
  FromString : String → Except GoError UUID
  Decode : String → Except GoError BookRequest

/-- The struct `handlerV1`: the service and the validator the handlers are built with. -/
structure handlerV1 (σ : Type) where
  Service : Service σ
  Validate : BookRequest → Option GoError

/-- The method `(*handlerV1).GetAllBooks`. -/
def handlerV1.GetAllBooks {σ : Type} (h : handlerV1 σ) (s : σ) : Response × σ :=
  let (r, s) := h.Service.GetAllBooks s
  match r with
  | Except.error err => (http.Error err.Error http.StatusInternalServerError, s)
  | Except.ok books =>
    ({ status := http.StatusOK, contentType := some "application/json",
       body := Payload.jsonBooks books }, s)

/-- The method `(*handlerV1).GetBookByID`. -/
def handlerV1.GetBookByID {σ : Type} (h : handlerV1 σ) (c : Codec) (r : Request) (s : σ) :
    Response × σ :=
  match c.FromString r.id with
  | Except.error _ => (http.Error "Invalid book ID" http.StatusBadRequest, s)
  | Except.ok id =>
    let (res, s) := h.Service.GetBookByID id s
    match res with
    | Except.error err => (http.Error err.Error http.StatusNotFound, s)
    | Except.ok book =>
      ({ status := http.StatusOK, contentType := some "application/json",
         body := Payload.jsonBook book }, s)

/-- The method `(*handlerV1).CreateBook`. -/
def handlerV1.CreateBook {σ : Type} (h : handlerV1 σ) (c : Codec) (r : Request) (s : σ) :
    Response × σ :=
  match c.Decode r.Body with
  | Except.error _ => (http.Error "Invalid request body" http.StatusBadRequest, s)
  | Except.ok req =>
    match h.Validate req with
    | some err => (http.Error err.Error http.StatusBadRequest, s)
    | none =>
      let (err, s) := h.Service.CreateBook req s
      match err with
      | some err => (http.Error err.Error http.StatusInternalServerError, s)
      | none => (WriteHeader http.StatusCreated, s)

/-- The method `(*handlerV1).UpdateBook`. -/
def handlerV1.UpdateBook {σ : Type} (h : handlerV1 σ) (c : Codec) (r : Request) (s : σ) :
    Response × σ :=
  match c.FromString r.id with
  | Except.error _ => (http.Error "Invalid book ID" http.StatusBadRequest, s)
  | Except.ok id =>
    match c.Decode r.Body with
    | Except.error _ => (http.Error "Invalid request body" http.StatusBadRequest, s)
    | Except.ok req =>
      match h.Validate req with
      | some err => (http.Error err.Error http.StatusBadRequest, s)
      | none =>
        let (err, s) := h.Service.UpdateBook id req s
        match err with
        | some err =>
          if err = GoError.ErrBookNotFound then
            (http.Error err.Error http.StatusNotFound, s)
          else
            (http.Error err.Error http.StatusInternalServerError, s)
        | none => (WriteHeader http.StatusOK, s)

/-- The method `(*handlerV1).DeleteBook`. -/
def handlerV1.DeleteBook {σ : Type} (h : handlerV1 σ) (c : Codec) (r : Request) (s : σ) :
    Response × σ :=
  match c.FromString r.id with
  | Except.error _ => (http.Error "Invalid book ID" http.StatusBadRequest, s)
  | Except.ok id =>
    let (err, s) := h.Service.DeleteBook id s
    match err with
    | some err =>
      if err = GoError.ErrBookNotFound then
        (http.Error err.Error http.StatusNotFound, s)
      else
        (http.Error err.Error http.StatusInternalServerError, s)
    | none => (WriteHeader http.StatusNoContent, s)

/-- The constructor `v1.New` with the validator of `validator.New()`. -/
def handlerV1.New {σ : Type} (sv : Library.Service σ) : handlerV1 σ :=
  { Service := sv, Validate := Library.Validate.Struct }

/-! ## Instances of the interfaces

The interfaces above are what the code is written against.  The instances below stand
in for the collaborators outside the repository, in the way the tests of the
repository use `sqlmock` and the generated mocks: they serve to run the code on
concrete inputs. -/

/-- The result of a statement that went through and touched `n` rows. -/
def Result.rows (n : Int) : Result := { Error := none, RowsAffected := n }

/-- The result of a statement the store refused. -/
def Result.failed (e : GoError) : Result := { Error := some e, RowsAffected := 0 }

/-- The error of the store on a violated uniqueness constraint. -/
def errDuplicateKey : GoError :=
  GoError.lib "ERROR: duplicate key value violates unique constraint (SQLSTATE 23505)"

/-- The error `sql.ErrConnDone` of `database/sql`. -/
def sqlErrConnDone : GoError := GoError.lib "sql: connection is already closed"

/-- Whether inserting `b` next to `rows` violates the primary key or the uniqueness
of the ISBN. -/
def conflicts (rows : List Book) (b : Book) : Bool :=
  rows.any fun r => decide (r.ID = b.ID) || decide (r.ISBN = b.ISBN)

/-- The row gorm writes for an entity on insert, as far as the `gorm` tags of
`entities.Book` change it: `Copies` carries `default:1`, and on insert gorm writes the
default of a field in place of the zero value of its type (it puts the default back
into the caller's struct as well, which no code of the repository reads).  The
timestamps are kept as handed over: gorm fills its tracking fields only when they hold
the zero time, which `time.Now()` does not return. -/
def gormDefaults (b : Book) : Book :=
  if b.Copies = 0 then { b with Copies := 1 } else b

/-- Insertion of a batch, one row after the other; the first conflict fails the batch. -/
def insertAll (rows : List Book) : List Book → Option (List Book)
  | [] => some rows
  | b :: bs => if conflicts rows b then none else insertAll (rows ++ [gormDefaults b]) bs

/-- An in-memory table of books behind the connection, answering as gorm does over a
relational store: the primary key and the ISBN are unique; an insert writes the row
with the defaults of the tags; `First` finds the row of an identifier or reports
`gorm.ErrRecordNotFound`; `Save` inserts when the identifier is the zero value,
rewrites the row of the identifier when there is one, and otherwise falls back to an
insert (gorm's upsert); `Delete` removes the row; the row counts are those of the
rows touched. -/
def memDB : DB (List Book) where
  Create b rows :=
    if conflicts rows b then (Result.failed errDuplicateKey, rows)
    else (Result.rows 1, rows ++ [gormDefaults b])
  First id rows :=
    match rows.find? fun r => decide (r.ID = id) with
    | some b => ((b, Result.rows 1), rows)
    | none => ((Book.zero, Result.failed GoError.ErrRecordNotFound), rows)
  Find rows := ((some rows, Result.rows rows.length), rows)
  Save b rows :=
    if b.ID = UUID.Nil then
      if conflicts rows b then (Result.failed errDuplicateKey, rows)
      else (Result.rows 1, rows ++ [gormDefaults b])
    else if conflicts (rows.filter fun r => decide (r.ID ≠ b.ID)) b then
      (Result.failed errDuplicateKey, rows)
    else if rows.any fun r => decide (r.ID = b.ID) then
      (Result.rows 1, rows.map fun r => if r.ID = b.ID then b else r)
    else
      (Result.rows 1, rows ++ [gormDefaults b])
  Delete id rows :=
    (Result.rows (rows.filter fun r => decide (r.ID = id)).length,
      rows.filter fun r => decide (r.ID ≠ id))
  Count rows := ((rows.length, Result.rows 0), rows)
  CreateAll bs rows :=
    match insertAll rows bs with
    | some rows1 => (Result.rows bs.length, rows1)
    | none => (Result.failed errDuplicateKey, rows)

/-- A connection on which every statement returns the prepared result and touches
nothing, as the `sqlmock` connection of the storage tests does (`Test_book_Update`
prepares an update that goes through with zero rows affected). -/
def sqlmockDB (result : Result) : DB Unit where
  Create _ s := (result, s)
  First _ s := ((Book.zero, result), s)
  Find s := ((none, result), s)
  Save _ s := (result, s)
  Delete _ s := (result, s)
  Count s := ((0, result), s)
  CreateAll _ s := (result, s)

/-- A connection that is closed: every call fails with `sql.ErrConnDone`, as the
insert of `Test_book_Create` does. -/
def downDB : DB Unit where
  Create _ s := (Result.failed sqlErrConnDone, s)
  First _ s := ((Book.zero, Result.failed sqlErrConnDone), s)
  Find s := ((none, Result.failed sqlErrConnDone), s)
  Save _ s := (Result.failed sqlErrConnDone, s)
  Delete _ s := (Result.failed sqlErrConnDone, s)
  Count s := ((0, Result.failed sqlErrConnDone), s)
  CreateAll _ s := (Result.failed sqlErrConnDone, s)

/-- A clock that advances by one nanosecond from one reading to the next, from `t0` on. -/
def tickingClock (t0 : Time) : Nat → Time := fun n => t0 + n

/-- A generator that hands out the identifiers `k + 1`, `k + 2`, ... and never fails. -/
def countingUUIDs (k : Nat) : Nat → UUID × Option GoError := fun n => (⟨k + n + 1⟩, none)

/-- The environment at process start over the store `d`. -/
def Env.start {δ : Type} (d : δ) (clock : Nat → Time) (uuids : Nat → UUID × Option GoError) :
    Env δ :=
  { db := d, clock := clock, clockReads := 0, uuids := uuids, uuidReads := 0 }

/-- What a mock of the storage interface is configured to return, as the tests
configure `bookMock.Book` with `On(...).Return(...)`. -/
structure bookMock.Returns where
  Create : Option GoError
  GetByID : Except GoError Library.Book
  GetAll : Except GoError (Slice Library.Book)
  Update : Option GoError
  Delete : Option GoError

/-- The mock `bookMock.Book`: every call returns what was configured. -/
def bookMock.Book (r : bookMock.Returns) : BookModel Unit where
  Create _ s := (r.Create, s)
  GetByID _ s := (r.GetByID, s)
  GetAll s := (r.GetAll, s)
  Update _ s := (r.Update, s)
  Delete _ s := (r.Delete, s)

/-- What a mock of the service interface is configured to return. -/
structure serviceMock.Returns where
  CreateBook : Option GoError
  GetBookByID : Except GoError BookResponse
  GetAllBooks : Except GoError (Slice (Option BookResponse))
  UpdateBook : Option GoError
  DeleteBook : Option GoError

/-- A mock of `services.Service`: every call returns what was configured. -/
def serviceMock.Service (r : serviceMock.Returns) : Library.Service Unit where
  CreateBook _ s := (r.CreateBook, s)
  GetBookByID _ s := (r.GetBookByID, s)
  GetAllBooks s := (r.GetAllBooks, s)
  UpdateBook _ _ s := (r.UpdateBook, s)
  DeleteBook _ s := (r.DeleteBook, s)

/-- The value of a hexadecimal digit. -/
def hexVal (c : Char) : Option Nat :=
  if 48 ≤ c.toNat ∧ c.toNat ≤ 57 then some (c.toNat - 48)
  else if 97 ≤ c.toNat ∧ c.toNat ≤ 102 then some (c.toNat - 87)
  else if 65 ≤ c.toNat ∧ c.toNat ≤ 70 then some (c.toNat - 55)
  else none

/-- The canonical textual form of an identifier, `xxxxxxxx-xxxx-xxxx-xxxx-xxxxxxxxxxxx`:
thirty-six characters, hyphens at the four fixed places, hexadecimal digits elsewhere.
It is the first of the forms `uuid.FromString` reads; the other forms (thirty-two
digits without hyphens, braces around, the `urn:uuid:` form) are not read here, so this
parser stands for the library only on texts in canonical form and on texts that are
in none of the forms. -/
def canonicalFromString (s : String) : Except GoError UUID :=
  let cs := s.data
  if cs.length = 36 ∧ cs.get? 8 = some (Char.ofNat 45) ∧ cs.get? 13 = some (Char.ofNat 45)
      ∧ cs.get? 18 = some (Char.ofNat 45) ∧ cs.get? 23 = some (Char.ofNat 45) then
    match (cs.filter fun c => decide (c ≠ Char.ofNat 45)).mapM hexVal with
    | some ds =>
      if ds.length = 32 then Except.ok ⟨ds.foldl (fun a d => 16 * a + d) 0⟩
      else Except.error (GoError.lib "uuid: incorrect UUID format")
    | none => Except.error (GoError.lib "uuid: incorrect UUID format")
  else Except.error (GoError.lib "uuid: incorrect UUID length")

/-- A codec that reads identifiers in canonical form and decodes exactly the listed
bodies to the listed requests. -/
def tableCodec (docs : List (String × BookRequest)) : Codec where
  FromString := canonicalFromString
  Decode body :=
    match docs.lookup body with
    | some req => Except.ok req
    | none => Except.error (GoError.lib "invalid character in request body")

/-- The request of `Test_service_UpdateBook`, with the publish date `now`. -/
def updatedRequest (now : Time) : BookRequest :=
  { Title := "Updated", Author := "Updated Author", ISBN := "999", Publisher := "Updated Publisher",
    PublishDate := now, Description := "Updated Desc", Copies := 7 }

/-- The existing entity of `Test_service_UpdateBook`. -/
def existingBook (bookID : UUID) (now : Time) : Book :=
  { ID := bookID, Title := "Old", Author := "Old Author", ISBN := "111", Publisher := "Old Pub",
    PublishDate := now, Description := "Old Desc", Copies := 1, CreatedAt := now, UpdatedAt := now,
    DeletedAt := 0 }

/-- The whole request path over the connection `g`: handlers over the service over the
storage component. -/
def stack {δ : Type} (g : DB δ) : handlerV1 (Env δ) :=
  handlerV1.New (service.New (book.New g))

/-! ## Concrete inputs -/

/-- A well-formed identifier that no row of the sample stores carries. -/
def absentID : String := "6ba7b810-9dad-11d1-80b4-00c04fd430c8"

/-- A codec that decodes the body `updated.json` to the request of `Test_service_UpdateBook`. -/
def sampleCodec : Codec := tableCodec [("updated.json", updatedRequest 1700000000)]

/-- A request on the path of `absentID` with a body that decodes and validates. -/
def absentRequest : Request := { id := absentID, Body := "updated.json" }

/-- A request whose path variable is not an identifier. -/
def malformedRequest : Request := { id := "not-a-uuid", Body := "updated.json" }

/-- The environment over an empty table, with a ticking clock. -/
def emptyEnv : Env (List Book) := Env.start [] (tickingClock 1000) (countingUUIDs 0)

/-- The environment over the closed connection. -/
def downEnv : Env Unit := Env.start () (tickingClock 1000) (countingUUIDs 0)

/-- A mock of the storage component on which every call succeeds and `GetByID` returns
the existing entity of `Test_service_UpdateBook`. -/
def successReturns : bookMock.Returns :=
  { Create := none, GetByID := Except.ok (existingBook ⟨7⟩ 1700000000), GetAll := Except.ok (some []),
    Update := none, Delete := none }

/-- The mock `notFoundMock` of `Test_service_UpdateBook`: `GetByID` fails. -/
def notFoundReturns : bookMock.Returns :=
  { successReturns with GetByID := Except.error (GoError.New "not found") }

/-- The mock `updateErrMock` of `Test_service_UpdateBook`: `Update` fails. -/
def updateErrReturns : bookMock.Returns :=
  { successReturns with Update := some (GoError.New "update error") }

/-- A service mock on which every call succeeds. -/
def serviceOK : serviceMock.Returns :=
  { CreateBook := none,
    GetBookByID := Except.ok
      { ID := ⟨7⟩, Title := "Old", Author := "Old Author", ISBN := "111", Publisher := "Old Pub",
        PublishDate := 1700000000, Description := "Old Desc", Copies := 1,
        CreatedAt := 1700000000, UpdatedAt := 1700000000 },
    GetAllBooks := Except.ok (some []), UpdateBook := none, DeleteBook := none }

/-- A request with every required field present and no copy on hand. -/
def zeroCopiesRequest : BookRequest :=
  { Title := "Dune", Author := "Frank Herbert", ISBN := "9780441013593", Publisher := "Ace",
    PublishDate := 1700000000, Description := "", Copies := 0 }

/-- A codec that decodes the body `zero.json` to `zeroCopiesRequest` and the body
`one.json` to the same request with one copy. -/
def copiesCodec : Codec :=
  tableCodec [("zero.json", zeroCopiesRequest), ("one.json", { zeroCopiesRequest with Copies := 1 })]

/-- The valid entity of `Test_book_Create`, with the publish date `testTime`; here the
caller has filled in an identifier and timestamps of its own. -/
def validBook (testTime : Time) : Book :=
  { ID := ⟨99⟩, CreatedAt := 5, UpdatedAt := 6, DeletedAt := 0, Title := "Test Book",
    Author := "Test Author", ISBN := "1234567890", Publisher := "Test Publisher",
    PublishDate := testTime, Description := "Test Description", Copies := 5 }

/-- The environment `w` with an empty journal next to its store. -/
def Env.journaled {δ : Type} (w : Env δ) : Env (δ × List DBCall) :=
  { db := (w.db, []), clock := w.clock, clockReads := w.clockReads, uuids := w.uuids,
    uuidReads := w.uuidReads }

/-- The response projection of a record as the specification words it: identifier,
title, author, ISBN, publisher, publish date, description, copies, created and
updated timestamps; the soft-delete marker is not carried.  It is what the results of
the service are compared with. -/
def responseProjection (b : Book) : BookResponse :=
  { ID := b.ID, Title := b.Title, Author := b.Author, ISBN := b.ISBN, Publisher := b.Publisher,
    PublishDate := b.PublishDate, Description := b.Description, Copies := b.Copies,
    CreatedAt := b.CreatedAt, UpdatedAt := b.UpdatedAt }

/-- The two records of `Test_service_GetAllBooks`, with the timestamp `now`. -/
def twoBooks (now : Time) : List Book :=
  [ { ID := ⟨1⟩, Title := "Book 1", Author := "Author 1", ISBN := "111", Publisher := "Pub 1",
      PublishDate := now, Description := "Desc 1", Copies := 2, CreatedAt := now,
      UpdatedAt := now, DeletedAt := 0 },
    { ID := ⟨2⟩, Title := "Book 2", Author := "Author 2", ISBN := "222", Publisher := "Pub 2",
      PublishDate := now, Description := "Desc 2", Copies := 3, CreatedAt := now,
      UpdatedAt := now, DeletedAt := 0 } ]

/-- The mock `successMock` of `Test_service_GetAllBooks`. -/
def getAllReturns : bookMock.Returns :=
  { successReturns with GetAll := Except.ok (some (twoBooks 1700000000)) }

/-- The mock `errorMock` of `Test_service_GetAllBooks`. -/
def getAllErrReturns : bookMock.Returns :=
  { successReturns with GetAll := Except.error (GoError.New "db error") }

/-! ## Seeding (`internal/db/postgres/seed.go`) -/

/-- The outcome of a function that may panic: it returns, or it panics with a message. -/
inductive Run (α : Type) where
  | ret (a : α)
  | panic (msg : String)

/-- Whether a year is a leap year of the Gregorian calendar. -/
def isLeap (year : Int) : Bool :=
  decide (year % 4 = 0) && (decide (year % 100 ≠ 0) || decide (year % 400 = 0))

/-- The number of days of a month of a year. -/
def daysIn (month : Nat) (year : Int) : Nat :=
  if month = 2 then (if isLeap year then 29 else 28)
  else if month = 4 ∨ month = 6 ∨ month = 9 ∨ month = 11 then 30
  else 31

/-- The number of days of a year before the first day of a month. -/
def daysBefore (month : Nat) (year : Int) : Nat :=
  ((List.range (month - 1)).map fun m => daysIn (m + 1) year).sum

/-- The call `time.Date(year, month, day, 0, 0, 0, 0, time.UTC)` as a count of
nanoseconds from the zero instant, midnight of January 1 of the year 1. -/
def timeDate (year : Int) (month day : Nat) : Time :=
  let y := year - 1
  let days : Int := 365 * y + y / 4 - y / 100 + y / 400 + daysBefore month year + (day - 1 : Int)
  days * 86400 * 1000000000

/-- The number a run of decimal digits spells, when every character is a digit. -/
def digitsVal (cs : List Char) : Option Nat :=
  if cs.all fun c => decide (48 ≤ c.toNat ∧ c.toNat ≤ 57) then
    some (cs.foldl (fun a c => 10 * a + (c.toNat - 48)) 0)
  else none

/-- The call `time.Parse("2006-01-02", value)` as the package `time` documents the
layout: four digits of year, a hyphen, two digits of month, a hyphen, two digits of
day and nothing after them; the month lies in 1..12 and the day in the month; the
result is midnight UTC of that day. -/
def timeParse (value : String) : Except GoError Time :=
  let cs := value.data
  if cs.length = 10 ∧ cs.get? 4 = some (Char.ofNat 45) ∧ cs.get? 7 = some (Char.ofNat 45) then
    match digitsVal (cs.take 4), digitsVal ((cs.drop 5).take 2), digitsVal (cs.drop 8) with
    | some year, some month, some day =>
      if month < 1 ∨ 12 < month then
        Except.error (GoError.lib "parsing time: month out of range")
      else if day < 1 ∨ daysIn month year < day then
        Except.error (GoError.lib "parsing time: day out of range")
      else Except.ok (timeDate year month day)
    | _, _, _ => Except.error (GoError.lib "parsing time: cannot parse value as layout")
  else Except.error (GoError.lib "parsing time: cannot parse value as layout")

/-- The function `mustGenerateUUID`. -/
def mustGenerateUUID {δ : Type} (w : Env δ) : Run (UUID × Env δ) :=
  let (r, w) := uuidNewV4 w
  match r.2 with
  | some err => Run.panic ("failed to generate UUID: " ++ err.Error)
  | none => Run.ret (r.1, w)

/-- The function `parseDate`. -/
def parseDate (dateStr : String) : Run Time :=
  match timeParse dateStr with
  | Except.error err => Run.panic ("failed to parse date: " ++ err.Error)
  | Except.ok date => Run.ret date

/-- The literal fields of one element of the slice `books` of `seedBooks`; the publish
date is the text handed to `parseDate`. -/
structure SeedEntry where
  Title : String
  Author : String
  ISBN : String
  Publisher : String
  PublishDate : String
  Description : String
  Copies : Int
deriving DecidableEq, Repr

/-- The five elements of the slice literal `books` of `seedBooks`, in source order. -/
def seedEntries : List SeedEntry :=
  [ { Title := "To Kill a Mockingbird",
      Author := "Harper Lee",
      ISBN := "9780061120084",
      Publisher := "HarperCollins",
      PublishDate := "1960-07-11",
      Description := "The unforgettable novel of a childhood in a sleepy Southern town and the crisis of conscience that rocked it.",
      Copies := 10 },
    { Title := "1984",
      Author := "George Orwell",
      ISBN := "9780451524935",
      Publisher := "Signet Classic",
      PublishDate := "1949-06-08",
      Description := "A dystopian novel set in Airstrip One, a province of the superstate Oceania in a world of perpetual war.",
      Copies := 7 },
    { Title := "The Great Gatsby",
      Author := "F. Scott Fitzgerald",
      ISBN := "9780743273565",
      Publisher := "Scribner",
      PublishDate := "1925-04-10",
      Description := "A portrait of the Jazz Age in all of its decadence and excess.",
      Copies := 5 },
    { Title := "Pride and Prejudice",
      Author := "Jane Austen",
      ISBN := "9780141439518",
      Publisher := "Penguin Classics",
      PublishDate := "1813-01-28",
      Description := "A romantic novel of manners that follows the character development of Elizabeth Bennet.",
      Copies := 8 },
    { Title := "The Hobbit",
      Author := "J.R.R. Tolkien",
      ISBN := "9780547928227",
      Publisher := "Houghton Mifflin Harcourt",
      PublishDate := "1937-09-21",
      Description := "A fantasy novel about the adventures of hobbit Bilbo Baggins.",
      Copies := 12 } ]

/-- The evaluation of one element of the slice literal: the calls are made in source
order, `mustGenerateUUID()`, `parseDate(...)`, `time.Now()`, `time.Now()`. -/
def seedBook {δ : Type} (e : SeedEntry) (w : Env δ) : Run (Book × Env δ) :=
  match mustGenerateUUID w with
  | Run.panic msg => Run.panic msg
  | Run.ret (id, w) =>
    match parseDate e.PublishDate with
    | Run.panic msg => Run.panic msg
    | Run.ret date =>
      let (created, w) := timeNow w
      let (updated, w) := timeNow w
      Run.ret
        ({ ID := id, Title := e.Title, Author := e.Author, ISBN := e.ISBN,
           Publisher := e.Publisher, PublishDate := date, Description := e.Description,
           Copies := e.Copies, CreatedAt := created, UpdatedAt := updated, DeletedAt := 0 }, w)

/-- The evaluation of the slice literal: its elements one after the other. -/
def seedLiteral {δ : Type} : List SeedEntry → Env δ → Run (List Book × Env δ)
  | [], w => Run.ret ([], w)
  | e :: es, w =>
    match seedBook e w with
    | Run.panic msg => Run.panic msg
    | Run.ret (b, w) =>
      match seedLiteral es w with
      | Run.panic msg => Run.panic msg
      | Run.ret (bs, w) => Run.ret (b :: bs, w)

/-- What a seeding function leaves behind when it returns: its error, the lines it
printed, and the environment. -/
structure Seeded (δ : Type) where
  err : Option GoError
  stdout : List String
  env : Env δ

/-- The function `seedBooks`. -/
def seedBooks {δ : Type} (g : DB δ) (w : Env δ) : Run (Seeded δ) :=
  let ((count, result), d) := g.Count w.db
  let w := { w with db := d }
  match result.Error with
  | some err => Run.ret { err := some err, stdout := [], env := w }
  | none =>
    if count > 0 then
      Run.ret { err := none, stdout := ["Books table already has data, skipping seed\n"], env := w }
    else
      match seedLiteral seedEntries w with
      | Run.panic msg => Run.panic msg
      | Run.ret (books, w) =>
        let (result, d) := g.CreateAll books w.db
        let w := { w with db := d }
        match result.Error with
        | some err => Run.ret { err := some err, stdout := [], env := w }
        | none =>
          Run.ret
            { err := none,
              stdout := ["Seeded " ++ toString books.length ++ " books successfully\n"],
              env := w }

/-- The function `SeedData`. -/
def SeedData {δ : Type} (g : DB δ) (w : Env δ) : Run (Seeded δ) :=
  match seedBooks g w with
  | Run.panic msg => Run.panic msg
  | Run.ret r =>
    match r.err with
    | some err => Run.ret { r with err := some (GoError.wrap "error seeding books" err) }
    | none =>
      Run.ret { r with stdout := r.stdout ++ ["Database seeding completed successfully\n"] }

/-! ## JSON encoding of the list response -/

/-- The text `json.NewEncoder(w).Encode(v)` writes for a slice `v`, as `encoding/json`
documents it: a nil slice encodes as `null`, any other slice as an array of its
elements, and `Encode` ends the text with a newline.  The encoding of an element is a
parameter. -/
def jsonEncodeSlice {α : Type} (enc : α → String) : Slice α → String
  | none => "null\n"
  | some xs => "[" ++ ",".intercalate (xs.map enc) ++ "]\n"

/-- The mock `errorMock` of `Test_service_CreateBook`, on the service interface: `CreateBook` fails. -/
def serviceCreateErr : serviceMock.Returns :=
  { serviceOK with CreateBook := some (GoError.New "database error") }

/-- A service mock on which `UpdateBook` and `DeleteBook` fail with the sentinel
`entities.ErrBookNotFound`. -/
def serviceNotFound : serviceMock.Returns :=
  { serviceOK with UpdateBook := some GoError.ErrBookNotFound,
                   DeleteBook := some GoError.ErrBookNotFound }

/-- A service mock on which `UpdateBook` and `DeleteBook` fail with `sql.ErrConnDone`. -/
def serviceDown : serviceMock.Returns :=
  { serviceOK with UpdateBook := some sqlErrConnDone, DeleteBook := some sqlErrConnDone }

/-- The environment over a table that holds the existing entity of
`Test_service_UpdateBook` under the identifier 7. -/
def oneBookEnv : Env (List Book) :=
  Env.start [existingBook ⟨7⟩ 1700000000] (tickingClock 2000) (countingUUIDs 0)

/-- An entity under the identifier 8, which no row of `oneBookEnv` carries, with an
ISBN of its own. -/
def strangerBook : Book := { existingBook ⟨8⟩ 1700000000 with ISBN := "222" }

/-- The time a publish-date text of the seed set stands for (the zero time when the
text does not parse). -/
def parsedDate (dateStr : String) : Time :=
  match timeParse dateStr with
  | Except.ok date => date
  | Except.error _ => 0

/-- The entities the slice literal of `seedBooks` stands for when nothing panics: the
entry `i` carries the result `u + i` of the generator, the parsed publish date, and the
clock readings `c + 2 * i` and `c + 2 * i + 1`.  It is what the evaluation of the
literal is compared with. -/
def seedExpected (uuids : Nat → UUID × Option GoError) (clock : Nat → Time) :
    List SeedEntry → Nat → Nat → List Book
  | [], _, _ => []
  | e :: es, u, c =>
    { ID := (uuids u).1, Title := e.Title, Author := e.Author, ISBN := e.ISBN,
      Publisher := e.Publisher, PublishDate := parsedDate e.PublishDate,
      Description := e.Description, Copies := e.Copies, CreatedAt := clock c,
      UpdatedAt := clock (c + 1), DeletedAt := 0 } :: seedExpected uuids clock es (u + 1) (c + 2)

/-- A service mock on which `GetAllBooks` fails, as `errorMock` of
`Test_service_GetAllBooks` makes it fail. -/
def serviceListErr : serviceMock.Returns :=
  { serviceOK with GetAllBooks := Except.error (GoError.New "db error") }

/-- The batch `seedBooks` builds in the environment `w`: the five entities of the
literal, with the next five results of the generator and the next ten readings of
the clock. -/
def seedBatch {δ : Type} (w : Env δ) : List Book :=
  seedExpected w.uuids w.clock seedEntries w.uuidReads w.clockReads

/-- The store after the count and the batch insert of a seeding run that starts in `w`. -/
def afterSeed {δ : Type} (g : DB δ) (w : Env δ) : δ :=
  (g.CreateAll (seedBatch w) (g.Count w.db).2).2

/-- The valid entity of `Test_book_Create` with no copy on hand. -/
def zeroCopiesBook : Book := { validBook 1700000000 with Copies := 0 }

/-! ## Theorems -/

/-- On the composed path, whenever the store reports `gorm.ErrRecordNotFound` for the
identifier, the get-by-id handler answers 404 and the update handler, given a body that
decodes and validates, answers 500. -/
theorem stack_absent_id_get_404_update_500 {δ : Type} (g : DB δ) (c : Codec) (r : Request)
    (w : Env δ) (id : UUID) (req : BookRequest)
    (hid : c.FromString r.id = Except.ok id) (hdec : c.Decode r.Body = Except.ok req)
    (hval : Validate.Struct req = none)
    (hnf : (g.First id w.db).1.2.Error = some GoError.ErrRecordNotFound) :
    (handlerV1.GetBookByID (stack g) c r w).1 = http.Error "book not found" 404
    ∧ (handlerV1.UpdateBook (stack g) c r w).1 = http.Error "book not found" 500 := by
  constructor
  · simp [handlerV1.GetBookByID, stack, handlerV1.New, service.New, service.GetBookByID,
      book.New, book.GetByID, hid, hnf, errorsIs, GoError.Error]
  · simp [handlerV1.UpdateBook, stack, handlerV1.New, service.New, service.UpdateBook,
      book.New, book.GetByID, hid, hdec, hval, hnf, errorsIs, GoError.Error]

/-- On the composed path, whenever the delete statement goes through and touches no
row, the delete handler answers 500. -/
theorem stack_absent_id_delete_500 {δ : Type} (g : DB δ) (c : Codec) (r : Request)
    (w : Env δ) (id : UUID) (hid : c.FromString r.id = Except.ok id)
    (hdel : (g.Delete id w.db).1 = { Error := none, RowsAffected := 0 }) :
    (handlerV1.DeleteBook (stack g) c r w).1 = http.Error "book not found" 500 := by
  simp [handlerV1.DeleteBook, stack, handlerV1.New, service.New, service.DeleteBook,
    book.New, book.Delete, hid, hdel, GoError.Error]

/-- C1 (code bug): on a store that holds no row for the identifier, the get-by-id
handler answers 404, but the update handler (with a body that decodes and validates)
and the delete handler answer 500: the storage component fails with a fresh
`errors.New("book not found")`, which is not the sentinel `entities.ErrBookNotFound`
the handlers compare against. -/
theorem C1_absent_id_update_delete_answer_500 :
    (book.GetByID memDB ⟨1⟩ emptyEnv).1 = Except.error (GoError.New "book not found")
    ∧ (book.Delete memDB ⟨1⟩ emptyEnv).1 = some (GoError.New "book not found")
    ∧ GoError.New "book not found" ≠ GoError.ErrBookNotFound
    ∧ (handlerV1.GetBookByID (stack memDB) sampleCodec absentRequest emptyEnv).1.status = 404
    ∧ (handlerV1.UpdateBook (stack memDB) sampleCodec absentRequest emptyEnv).1.status = 500
    ∧ (handlerV1.DeleteBook (stack memDB) sampleCodec absentRequest emptyEnv).1.status = 500 := by
  refine ⟨rfl, rfl, ?_, ?_, ?_, ?_⟩ <;> decide

/-- C2 (code bug): for a well-formed identifier the get-by-id handler answers 404 for
every error of the service, whatever the error is; a closed connection, which is not a
not-found failure, is answered with 404 and not with 500. -/
theorem C2_get_by_id_answers_404_for_every_error :
    (∀ e : GoError,
      (handlerV1.GetBookByID
          (handlerV1.New (serviceMock.Service { serviceOK with GetBookByID := Except.error e }))
          sampleCodec absentRequest ()).1 = http.Error e.Error http.StatusNotFound)
    ∧ (service.GetBookByID (book.New downDB) ⟨1⟩ downEnv).1 = Except.error sqlErrConnDone
    ∧ (handlerV1.GetBookByID (stack downDB) sampleCodec absentRequest downEnv).1
        = http.Error "sql: connection is already closed" 404 := by
  refine ⟨fun e => rfl, rfl, ?_⟩
  decide

/-- C3: when storage `GetByID` returns the entity `e`, the entity `UpdateBook` hands to
storage `Update` carries the title, author, ISBN, publisher, publish date,
description and copies of the request, and the identifier and creation timestamp of
`e`; the service makes exactly the calls `GetByID`, `Update`, in that order. -/
theorem C3_update_hands_over_full_replacement {σ : Type} (m : BookModel σ) (id : UUID)
    (req : BookRequest) (s s1 : σ) (e : Book)
    (hget : m.GetByID id s = (Except.ok e, s1)) :
    ∃ b : Book,
      (service.UpdateBook m.traced id req (s, [])).2.2
          = [ModelCall.GetByID id, ModelCall.Update b]
      ∧ b.Title = req.Title ∧ b.Author = req.Author ∧ b.ISBN = req.ISBN
      ∧ b.Publisher = req.Publisher ∧ b.PublishDate = req.PublishDate
      ∧ b.Description = req.Description ∧ b.Copies = req.Copies
      ∧ b.ID = e.ID ∧ b.CreatedAt = e.CreatedAt := by
  refine ⟨{ e with Title := req.Title, Author := req.Author, ISBN := req.ISBN,
                   Publisher := req.Publisher, PublishDate := req.PublishDate,
                   Description := req.Description, Copies := req.Copies }, ?_,
    rfl, rfl, rfl, rfl, rfl, rfl, rfl, rfl, rfl⟩
  simp only [service.UpdateBook, BookModel.traced, hget]
  cases hu : (m.Update _ s1).1 <;> simp

/-- Witness of C3 on the mocks of `Test_service_UpdateBook`. -/
theorem C3_update_hands_over_full_replacement_witness :
    (bookMock.Book successReturns).GetByID ⟨7⟩ ()
        = (Except.ok (existingBook ⟨7⟩ 1700000000), ())
    ∧ ∃ b : Book,
      (service.UpdateBook (bookMock.Book successReturns).traced ⟨7⟩
          (updatedRequest 1700000001) ((), [])).2.2
          = [ModelCall.GetByID ⟨7⟩, ModelCall.Update b]
      ∧ b.Title = "Updated" ∧ b.Author = "Updated Author" ∧ b.ISBN = "999"
      ∧ b.Publisher = "Updated Publisher" ∧ b.PublishDate = 1700000001
      ∧ b.Description = "Updated Desc" ∧ b.Copies = 7
      ∧ b.ID = ⟨7⟩ ∧ b.CreatedAt = 1700000000 :=
  ⟨rfl, C3_update_hands_over_full_replacement (bookMock.Book successReturns) ⟨7⟩
    (updatedRequest 1700000001) () () (existingBook ⟨7⟩ 1700000000) rfl⟩

/-- C4: `UpdateBook` checks existence before it mutates.  If storage `GetByID` fails,
`UpdateBook` returns that same error, the only call made on storage is that `GetByID`
(`Update` is not invoked) and the state is the one `GetByID` left; if `GetByID`
succeeds and storage `Update` fails, `UpdateBook` returns the error of `Update`
unchanged. -/
theorem C4_update_checks_existence_first {σ : Type} (m : BookModel σ) (id : UUID)
    (req : BookRequest) (s : σ) :
    (∀ (err : GoError) (s1 : σ), m.GetByID id s = (Except.error err, s1) →
      service.UpdateBook m.traced id req (s, []) = (some err, (s1, [ModelCall.GetByID id])))
    ∧ (∀ (e : Book) (s1 : σ) (err : GoError) (s2 : σ), m.GetByID id s = (Except.ok e, s1) →
      m.Update
          { e with Title := req.Title, Author := req.Author, ISBN := req.ISBN,
                   Publisher := req.Publisher, PublishDate := req.PublishDate,
                   Description := req.Description, Copies := req.Copies } s1 = (some err, s2) →
      (service.UpdateBook m.traced id req (s, [])).1 = some err
      ∧ (service.UpdateBook m id req s).1 = some err) := by
  constructor
  · intro err s1 hget
    simp [service.UpdateBook, BookModel.traced, hget]
  · intro e s1 err s2 hget hupd
    simp [service.UpdateBook, BookModel.traced, hget, hupd]

/-- Witness of C4 on the mocks `notFoundMock` and `updateErrMock` of
`Test_service_UpdateBook`. -/
theorem C4_update_checks_existence_first_witness :
    ((bookMock.Book notFoundReturns).GetByID ⟨9⟩ () = (Except.error (GoError.New "not found"), ())
      ∧ service.UpdateBook (bookMock.Book notFoundReturns).traced ⟨9⟩ (updatedRequest 1700000001)
          ((), []) = (some (GoError.New "not found"), ((), [ModelCall.GetByID ⟨9⟩])))
    ∧ ((bookMock.Book updateErrReturns).GetByID ⟨7⟩ ()
          = (Except.ok (existingBook ⟨7⟩ 1700000000), ())
      ∧ (service.UpdateBook (bookMock.Book updateErrReturns).traced ⟨7⟩
          (updatedRequest 1700000001) ((), [])).1 = some (GoError.New "update error")) :=
  ⟨⟨rfl, (C4_update_checks_existence_first (bookMock.Book notFoundReturns) ⟨9⟩
      (updatedRequest 1700000001) ()).1 (GoError.New "not found") () rfl⟩,
   ⟨rfl, ((C4_update_checks_existence_first (bookMock.Book updateErrReturns) ⟨7⟩
      (updatedRequest 1700000001) ()).2 (existingBook ⟨7⟩ 1700000000) ()
      (GoError.New "update error") () rfl rfl).1⟩⟩

/-- C5: when the path variable does not parse as an identifier, each of the
get-by-id, update and delete handlers answers 400 with the text `Invalid book ID` and
makes no call on the service (the journal of service calls stays empty and the state
is untouched), whatever the body, the validator and the service are. -/
theorem C5_malformed_id_answers_400_without_service {σ : Type} (sv : Service σ)
    (v : BookRequest → Option GoError) (c : Codec) (r : Request) (s : σ) (e : GoError)
    (hbad : c.FromString r.id = Except.error e) :
    handlerV1.GetBookByID { Service := sv.traced, Validate := v } c r (s, [])
        = (http.Error "Invalid book ID" 400, (s, []))
    ∧ handlerV1.UpdateBook { Service := sv.traced, Validate := v } c r (s, [])
        = (http.Error "Invalid book ID" 400, (s, []))
    ∧ handlerV1.DeleteBook { Service := sv.traced, Validate := v } c r (s, [])
        = (http.Error "Invalid book ID" 400, (s, [])) := by
  refine ⟨?_, ?_, ?_⟩
  · simp [handlerV1.GetBookByID, hbad]
  · simp [handlerV1.UpdateBook, hbad]
  · simp [handlerV1.DeleteBook, hbad]

/-- Witness of C5 on the path variable `not-a-uuid`. -/
theorem C5_malformed_id_answers_400_without_service_witness :
    sampleCodec.FromString malformedRequest.id
        = Except.error (GoError.lib "uuid: incorrect UUID length")
    ∧ (handlerV1.GetBookByID
          { Service := (serviceMock.Service serviceOK).traced, Validate := Validate.Struct }
          sampleCodec malformedRequest ((), [])
        = (http.Error "Invalid book ID" 400, ((), []))
      ∧ handlerV1.UpdateBook
          { Service := (serviceMock.Service serviceOK).traced, Validate := Validate.Struct }
          sampleCodec malformedRequest ((), [])
        = (http.Error "Invalid book ID" 400, ((), []))
      ∧ handlerV1.DeleteBook
          { Service := (serviceMock.Service serviceOK).traced, Validate := Validate.Struct }
          sampleCodec malformedRequest ((), [])
        = (http.Error "Invalid book ID" 400, ((), []))) :=
  ⟨rfl, C5_malformed_id_answers_400_without_service (serviceMock.Service serviceOK)
    Validate.Struct sampleCodec malformedRequest () (GoError.lib "uuid: incorrect UUID length") rfl⟩

/-- What the tags of `entities.BookRequest` accept: the four texts are non-empty, the
publish date is not the zero time, and copies is at least 0 and not 0. -/
theorem Validate.Struct_eq_none_iff (req : BookRequest) :
    Validate.Struct req = none ↔
      req.Title ≠ "" ∧ req.Author ≠ "" ∧ req.ISBN ≠ "" ∧ req.Publisher ≠ ""
        ∧ req.PublishDate ≠ 0 ∧ req.Copies ≠ 0 ∧ 0 ≤ req.Copies := by
  by_cases h1 : req.Title = "" <;> by_cases h2 : req.Author = "" <;>
    by_cases h3 : req.ISBN = "" <;> by_cases h4 : req.Publisher = "" <;>
    by_cases h5 : req.PublishDate = 0 <;> by_cases h6 : req.Copies = 0 <;>
    by_cases h7 : 0 ≤ req.Copies <;>
    simp [Validate.Struct, BookRequest.fields, firstFailing, Tag.holds, List.filterMap, h1, h2, h3,
      h4, h5, h6, h7]

/-- C6 (code bug): a request with every required field present and copies = 0 fails
the structural validation, on the `required` tag of `Copies`, and the create and
update handlers answer it with 400; the same request with copies = 1 passes and is
created with 201. -/
theorem C6_zero_copies_is_rejected :
    Validate.Struct zeroCopiesRequest
        = some (GoError.validation [{ Field := "Copies", Tag := "required" }])
    ∧ (handlerV1.CreateBook (stack memDB) copiesCodec { id := "", Body := "zero.json" }
        emptyEnv).1.status = 400
    ∧ (handlerV1.UpdateBook (stack memDB) copiesCodec { id := absentID, Body := "zero.json" }
        emptyEnv).1.status = 400
    ∧ Validate.Struct { zeroCopiesRequest with Copies := 1 } = none
    ∧ (handlerV1.CreateBook (stack memDB) copiesCodec { id := "", Body := "one.json" }
        emptyEnv).1.status = 201 := by
  refine ⟨?_, ?_, ?_, ?_, ?_⟩ <;> decide

/-- What `Create` hands to the connection: the entity with the identifier of the
generator and the next two readings of the clock. -/
theorem book.Create_journal {δ : Type} (g : DB δ) (b : Book) (w : Env δ) :
    (book.Create g.traced b w.journaled).2.db.2
      = [DBCall.Create
          { b with ID := (w.uuids w.uuidReads).1, CreatedAt := w.clock w.clockReads,
                   UpdatedAt := w.clock (w.clockReads + 1) }] := by
  simp [book.Create, DB.traced, Env.journaled, timeNow, uuidNewV4]

/-- C7 (counterexample): with a clock that advances between two readings, `Create`
succeeds and the row it persists has the creation timestamp 1000 and the update
timestamp 1001. -/
theorem C7_created_and_updated_differ :
    (book.Create memDB (validBook 1700000000) emptyEnv).1 = none
    ∧ (book.Create memDB (validBook 1700000000) emptyEnv).2.db
        = [{ validBook 1700000000 with ID := ⟨1⟩, CreatedAt := 1000, UpdatedAt := 1001 }]
    ∧ (book.Create memDB (validBook 1700000000) emptyEnv).2.db.map Book.CreatedAt
        ≠ (book.Create memDB (validBook 1700000000) emptyEnv).2.db.map Book.UpdatedAt := by
  refine ⟨?_, ?_, ?_⟩ <;> decide

/-- C7 (amended): the entity `Create` persists has as creation timestamp the reading
`time.Now()` returns first and as update timestamp the reading of the next call of
`time.Now()`; the two timestamps are equal exactly when these two successive readings
are equal. -/
theorem C7_timestamps_are_successive_readings {δ : Type} (g : DB δ) (b : Book) (w : Env δ) :
    ∃ p : Book,
      (book.Create g.traced b w.journaled).2.db.2 = [DBCall.Create p]
      ∧ p.CreatedAt = w.clock w.clockReads
      ∧ p.UpdatedAt = w.clock (w.clockReads + 1)
      ∧ (p.CreatedAt = p.UpdatedAt ↔ w.clock w.clockReads = w.clock (w.clockReads + 1)) :=
  ⟨_, book.Create_journal g b w, rfl, rfl, Iff.rfl⟩

/-- C8 (counterexample): for an entity with no copy on hand, `Create` succeeds and
the row the store holds carries 1 in `Copies`, not the 0 of the input, and two
different clock readings, 1000 and 1001, in its two timestamps. -/
theorem C8_zero_copies_is_stored_as_one :
    (book.Create memDB zeroCopiesBook emptyEnv).1 = none
    ∧ (book.Create memDB zeroCopiesBook emptyEnv).2.db
        = [{ zeroCopiesBook with ID := ⟨1⟩, CreatedAt := 1000, UpdatedAt := 1001, Copies := 1 }]
    ∧ (book.Create memDB zeroCopiesBook emptyEnv).2.db.map Book.Copies
        ≠ [zeroCopiesBook.Copies]
    ∧ (book.Create memDB zeroCopiesBook emptyEnv).2.db.map Book.CreatedAt
        ≠ (book.Create memDB zeroCopiesBook emptyEnv).2.db.map Book.UpdatedAt := by
  refine ⟨?_, ?_, ?_, ?_⟩ <;> decide

/-- C8 (amended): whatever identifier and timestamps the entity carries on entry, the
record `Create` hands to the store carries the identifier the generator returned, the
reading `time.Now()` returned first as creation timestamp and the reading of the next
call as update timestamp, and the seven descriptive fields of the input; `Create`
makes that one insert and returns the error of its result (nil when the insert went
through).  The row a store that applies the tags of `entities.Book` persists on a
successful `Create` is that record, except that `Copies` is 1 when the input has 0;
when the insert fails no row is written. -/
theorem C8_create_discards_identity_and_timestamps {δ : Type} (g : DB δ) (b : Book)
    (w : Env δ) (w2 : Env (List Book)) :
    (∃ p : Book,
      (book.Create g.traced b w.journaled).2.db.2 = [DBCall.Create p]
      ∧ p.ID = (w.uuids w.uuidReads).1
      ∧ p.CreatedAt = w.clock w.clockReads
      ∧ p.UpdatedAt = w.clock (w.clockReads + 1)
      ∧ p.Title = b.Title ∧ p.Author = b.Author ∧ p.ISBN = b.ISBN ∧ p.Publisher = b.Publisher
      ∧ p.PublishDate = b.PublishDate ∧ p.Description = b.Description ∧ p.Copies = b.Copies
      ∧ (book.Create g b w).1 = (g.Create p w.db).1.Error
      ∧ (book.Create g b w).2.db = (g.Create p w.db).2
      ∧ ∀ (id0 : UUID) (c0 u0 : Time),
          book.Create g { b with ID := id0, CreatedAt := c0, UpdatedAt := u0 } w
            = book.Create g b w)
    ∧ ((book.Create memDB b w2).1 = none →
      ∃ row : Book,
        (book.Create memDB b w2).2.db = w2.db ++ [row]
        ∧ row.ID = (w2.uuids w2.uuidReads).1
        ∧ row.CreatedAt = w2.clock w2.clockReads
        ∧ row.UpdatedAt = w2.clock (w2.clockReads + 1)
        ∧ row.Title = b.Title ∧ row.Author = b.Author ∧ row.ISBN = b.ISBN
        ∧ row.Publisher = b.Publisher ∧ row.PublishDate = b.PublishDate
        ∧ row.Description = b.Description
        ∧ row.Copies = (if b.Copies = 0 then 1 else b.Copies))
    ∧ (∀ e : GoError, (book.Create memDB b w2).1 = some e →
      (book.Create memDB b w2).2.db = w2.db) := by
  refine ⟨⟨_, book.Create_journal g b w, rfl, rfl, rfl, rfl, rfl, rfl, rfl, rfl, rfl, rfl, rfl,
    rfl, fun _ _ _ => rfl⟩, ?_, ?_⟩
  · intro hok
    simp only [book.Create, memDB, timeNow, uuidNewV4] at hok ⊢
    split at hok
    · simp [Result.failed] at hok
    · rename_i hc
      simp only [hc, if_false, Bool.false_eq_true]
      refine ⟨_, rfl, ?_⟩
      by_cases h0 : b.Copies = 0 <;> simp [gormDefaults, h0]
  · intro e herr
    simp only [book.Create, memDB, timeNow, uuidNewV4] at herr ⊢
    split at herr
    · rename_i hc
      simp [hc]
    · simp [Result.rows] at herr

/-- Witness of C8 on the entity of `Test_book_Create` with no copy on hand, over the
empty table. -/
theorem C8_create_discards_identity_and_timestamps_witness :
    (book.Create memDB zeroCopiesBook emptyEnv).1 = none
    ∧ ∃ row : Book,
        (book.Create memDB zeroCopiesBook emptyEnv).2.db = emptyEnv.db ++ [row]
        ∧ row.ID = (emptyEnv.uuids emptyEnv.uuidReads).1
        ∧ row.CreatedAt = emptyEnv.clock emptyEnv.clockReads
        ∧ row.UpdatedAt = emptyEnv.clock (emptyEnv.clockReads + 1)
        ∧ row.Title = zeroCopiesBook.Title ∧ row.Author = zeroCopiesBook.Author
        ∧ row.ISBN = zeroCopiesBook.ISBN ∧ row.Publisher = zeroCopiesBook.Publisher
        ∧ row.PublishDate = zeroCopiesBook.PublishDate
        ∧ row.Description = zeroCopiesBook.Description
        ∧ row.Copies = (if zeroCopiesBook.Copies = 0 then 1 else zeroCopiesBook.Copies) :=
  ⟨by decide, (C8_create_discards_identity_and_timestamps downDB zeroCopiesBook downEnv
    emptyEnv).2.1 (by decide)⟩

/-- C9: the entity `CreateBook` hands to storage `Create` carries the seven fields of
the request and the zero value in `ID`, `CreatedAt`, `UpdatedAt` and `DeletedAt`;
`CreateBook` makes exactly that one call on storage and returns its error unchanged
(nil on success). -/
theorem C9_create_book_builds_entity_from_request {σ : Type} (m : BookModel σ)
    (req : BookRequest) (s : σ) :
    ∃ b : Book,
      service.CreateBook m.traced req (s, [])
          = ((m.Create b s).1, ((m.Create b s).2, [ModelCall.Create b]))
      ∧ service.CreateBook m req s = m.Create b s
      ∧ b.Title = req.Title ∧ b.Author = req.Author ∧ b.ISBN = req.ISBN
      ∧ b.Publisher = req.Publisher ∧ b.PublishDate = req.PublishDate
      ∧ b.Description = req.Description ∧ b.Copies = req.Copies
      ∧ b.ID = UUID.Nil ∧ b.CreatedAt = 0 ∧ b.UpdatedAt = 0 ∧ b.DeletedAt = 0 := by
  refine ⟨{ Book.zero with Title := req.Title, Author := req.Author, ISBN := req.ISBN,
                           Publisher := req.Publisher, PublishDate := req.PublishDate,
                           Description := req.Description, Copies := req.Copies }, ?_, ?_,
    rfl, rfl, rfl, rfl, rfl, rfl, rfl, rfl, rfl, rfl, rfl⟩
  · simp only [service.CreateBook, BookModel.traced]
    cases h : (m.Create _ s).1 <;> simp [h]
  · simp only [service.CreateBook]
    cases h : (m.Create _ s).1 <;> exact Prod.ext (by simp [h]) rfl

/-- The loop of `GetAllBooks`, started after the positions of `pre` have been
assigned, assigns the projections of the remaining records to the remaining
positions. -/
theorem service.GetAllBooks.loop_spec (bs : List Book) :
    ∀ pre : List (Option BookResponse),
      (bs.enumFrom pre.length).foldl service.GetAllBooks.body
          (pre ++ List.replicate bs.length none)
        = pre ++ bs.map fun b => some (responseProjection b) := by
  induction bs with
  | nil => intro pre; simp
  | cons b bs ih =>
    intro pre
    have h := ih (pre ++ [some (responseProjection b)])
    simp only [List.length_append, List.length_singleton, List.append_assoc,
      List.singleton_append] at h
    simp only [List.enumFrom, List.foldl_cons, List.length_cons, List.replicate_succ,
      List.map_cons]
    rw [← h]
    congr 1
    simp [service.GetAllBooks.body, responseProjection]

/-- The builtin `len` counts the elements a `range` loop visits. -/
theorem Slice.len_eq_length_elems {α : Type} (xs : Slice α) :
    Slice.len xs = (Slice.elems xs).length := by
  cases xs <;> rfl

/-- C10: when storage `GetAll` returns a list of records, `GetAllBooks` returns no
error and a non-nil sequence of the same length whose i-th element is the response
projection of the i-th record (so an empty list gives an empty, non-nil sequence);
when storage `GetAll` fails, `GetAllBooks` returns no sequence and that error. -/
theorem C10_get_all_books_preserves_order_and_length {σ : Type} (m : BookModel σ) (s : σ) :
    (∀ (books : Slice Book) (s1 : σ), m.GetAll s = (Except.ok books, s1) →
      ∃ resp : List (Option BookResponse),
        service.GetAllBooks m s = (Except.ok (some resp), s1)
        ∧ resp.length = Slice.len books
        ∧ (∀ (i : Nat) (h : i < (Slice.elems books).length),
            resp.get? i = some (some (responseProjection ((Slice.elems books).get ⟨i, h⟩))))
        ∧ (Slice.len books = 0 → resp = []))
    ∧ (∀ (err : GoError) (s1 : σ), m.GetAll s = (Except.error err, s1) →
      service.GetAllBooks m s = (Except.error err, s1)) := by
  constructor
  · intro books s1 hall
    refine ⟨(Slice.elems books).map fun b => some (responseProjection b), ?_, ?_, ?_, ?_⟩
    · have h := service.GetAllBooks.loop_spec (Slice.elems books) []
      simp only [List.length_nil, List.nil_append] at h
      simp only [service.GetAllBooks, hall, Slice.len_eq_length_elems, List.enum, h]
    · simp [Slice.len_eq_length_elems]
    · intro i h
      simp [List.getElem?_eq_getElem h]
    · intro h0
      rw [Slice.len_eq_length_elems] at h0
      simp [List.length_eq_zero.mp h0]
  · intro err s1 hall
    simp [service.GetAllBooks, hall]

/-- Witness of C10 on the mocks of `Test_service_GetAllBooks`: two records, an empty
list, and a failing store. -/
theorem C10_get_all_books_preserves_order_and_length_witness :
    ((bookMock.Book getAllReturns).GetAll () = (Except.ok (some (twoBooks 1700000000)), ())
      ∧ ∃ resp : List (Option BookResponse),
        service.GetAllBooks (bookMock.Book getAllReturns) () = (Except.ok (some resp), ())
        ∧ resp.length = 2
        ∧ (∀ (i : Nat) (h : i < (twoBooks 1700000000).length),
            resp.get? i = some (some (responseProjection ((twoBooks 1700000000).get ⟨i, h⟩))))
        ∧ (Slice.len (some (twoBooks 1700000000)) = 0 → resp = []))
    ∧ ((bookMock.Book successReturns).GetAll () = (Except.ok (some []), ())
      ∧ service.GetAllBooks (bookMock.Book successReturns) () = (Except.ok (some []), ()))
    ∧ ((bookMock.Book getAllErrReturns).GetAll () = (Except.error (GoError.New "db error"), ())
      ∧ service.GetAllBooks (bookMock.Book getAllErrReturns) ()
          = (Except.error (GoError.New "db error"), ())) :=
  ⟨⟨rfl, (C10_get_all_books_preserves_order_and_length (bookMock.Book getAllReturns) ()).1
      (some (twoBooks 1700000000)) () rfl⟩,
   ⟨rfl,
    match (C10_get_all_books_preserves_order_and_length (bookMock.Book successReturns) ()).1
      (some []) () rfl with
    | ⟨_, hres, _, _, hnil⟩ => (hnil rfl) ▸ hres⟩,
   ⟨rfl, (C10_get_all_books_preserves_order_and_length (bookMock.Book getAllErrReturns) ()).2
      (GoError.New "db error") () rfl⟩⟩

/-- C11: when storage `GetByID` returns the entity `e`, `GetBookByID` returns no error
and the response whose identifier, title, author, ISBN, publisher, publish date,
description, copies, created and updated timestamps are those of `e` (the response
type has no field for the soft-delete marker); when storage `GetByID` fails,
`GetBookByID` returns no response and that error unchanged.  In both cases the only
call on storage is that `GetByID`. -/
theorem C11_get_book_by_id_is_faithful_projection {σ : Type} (m : BookModel σ) (id : UUID)
    (s : σ) :
    (∀ (e : Book) (s1 : σ), m.GetByID id s = (Except.ok e, s1) →
      ∃ resp : BookResponse,
        service.GetBookByID m.traced id (s, [])
            = (Except.ok resp, (s1, [ModelCall.GetByID id]))
        ∧ resp.ID = e.ID ∧ resp.Title = e.Title ∧ resp.Author = e.Author ∧ resp.ISBN = e.ISBN
        ∧ resp.Publisher = e.Publisher ∧ resp.PublishDate = e.PublishDate
        ∧ resp.Description = e.Description ∧ resp.Copies = e.Copies
        ∧ resp.CreatedAt = e.CreatedAt ∧ resp.UpdatedAt = e.UpdatedAt)
    ∧ (∀ (err : GoError) (s1 : σ), m.GetByID id s = (Except.error err, s1) →
      service.GetBookByID m.traced id (s, [])
          = (Except.error err, (s1, [ModelCall.GetByID id]))) := by
  constructor
  · intro e s1 hget
    refine ⟨responseProjection e, ?_, rfl, rfl, rfl, rfl, rfl, rfl, rfl, rfl, rfl, rfl⟩
    simp [service.GetBookByID, BookModel.traced, hget, responseProjection]
  · intro err s1 hget
    simp [service.GetBookByID, BookModel.traced, hget]

/-- Witness of C11 on the mocks of the service tests: an existing entity and a failing
`GetByID`. -/
theorem C11_get_book_by_id_is_faithful_projection_witness :
    ((bookMock.Book successReturns).GetByID ⟨7⟩ ()
        = (Except.ok (existingBook ⟨7⟩ 1700000000), ())
      ∧ ∃ resp : BookResponse,
        service.GetBookByID (bookMock.Book successReturns).traced ⟨7⟩ ((), [])
            = (Except.ok resp, ((), [ModelCall.GetByID ⟨7⟩]))
        ∧ resp.ID = ⟨7⟩ ∧ resp.Title = "Old" ∧ resp.Author = "Old Author" ∧ resp.ISBN = "111"
        ∧ resp.Publisher = "Old Pub" ∧ resp.PublishDate = 1700000000
        ∧ resp.Description = "Old Desc" ∧ resp.Copies = 1
        ∧ resp.CreatedAt = 1700000000 ∧ resp.UpdatedAt = 1700000000)
    ∧ ((bookMock.Book notFoundReturns).GetByID ⟨9⟩ ()
        = (Except.error (GoError.New "not found"), ())
      ∧ service.GetBookByID (bookMock.Book notFoundReturns).traced ⟨9⟩ ((), [])
          = (Except.error (GoError.New "not found"), ((), [ModelCall.GetByID ⟨9⟩]))) :=
  ⟨⟨rfl, (C11_get_book_by_id_is_faithful_projection (bookMock.Book successReturns) ⟨7⟩ ()).1
      (existingBook ⟨7⟩ 1700000000) () rfl⟩,
   ⟨rfl, (C11_get_book_by_id_is_faithful_projection (bookMock.Book notFoundReturns) ⟨9⟩ ()).2
      (GoError.New "not found") () rfl⟩⟩

/-- C12: the create handler decides its status in this order.  A body that does not
decode gives 400 and no call on the service; a decoded body that fails validation
gives 400 with the validation text and no call on the service; otherwise `CreateBook`
is called exactly once with the decoded request, and a failure of it gives 500 with
the text of the error while success gives 201 with no header and no body written. -/
theorem C12_create_handler_status_order {σ : Type} (sv : Service σ)
    (v : BookRequest → Option GoError) (c : Codec) (r : Request) (s : σ) :
    (∀ e : GoError, c.Decode r.Body = Except.error e →
      handlerV1.CreateBook { Service := sv.traced, Validate := v } c r (s, [])
        = (http.Error "Invalid request body" 400, (s, [])))
    ∧ (∀ (req : BookRequest) (err : GoError), c.Decode r.Body = Except.ok req →
      v req = some err →
      handlerV1.CreateBook { Service := sv.traced, Validate := v } c r (s, [])
        = (http.Error err.Error 400, (s, [])))
    ∧ (∀ (req : BookRequest) (err : GoError) (s1 : σ), c.Decode r.Body = Except.ok req →
      v req = none → sv.CreateBook req s = (some err, s1) →
      handlerV1.CreateBook { Service := sv.traced, Validate := v } c r (s, [])
        = (http.Error err.Error 500, (s1, [ServiceCall.CreateBook req])))
    ∧ (∀ (req : BookRequest) (s1 : σ), c.Decode r.Body = Except.ok req →
      v req = none → sv.CreateBook req s = (none, s1) →
      handlerV1.CreateBook { Service := sv.traced, Validate := v } c r (s, [])
        = ({ status := 201, contentType := none, body := Payload.empty },
            (s1, [ServiceCall.CreateBook req]))) := by
  refine ⟨?_, ?_, ?_, ?_⟩
  · intro e hdec
    simp [handlerV1.CreateBook, hdec]
  · intro req err hdec hval
    simp [handlerV1.CreateBook, hdec, hval]
  · intro req err s1 hdec hval hsv
    simp [handlerV1.CreateBook, Service.traced, hdec, hval, hsv]
  · intro req s1 hdec hval hsv
    simp [handlerV1.CreateBook, Service.traced, WriteHeader, hdec, hval, hsv]

/-- Witness of C12: a body that does not decode, a body with no copy on hand, a valid
body on a failing service, and a valid body on a service that succeeds. -/
theorem C12_create_handler_status_order_witness :
    (copiesCodec.Decode "garbage" = Except.error (GoError.lib "invalid character in request body")
      ∧ handlerV1.CreateBook
          { Service := (serviceMock.Service serviceOK).traced, Validate := Validate.Struct }
          copiesCodec { id := "", Body := "garbage" } ((), [])
        = (http.Error "Invalid request body" 400, ((), [])))
    ∧ ((copiesCodec.Decode "zero.json" = Except.ok zeroCopiesRequest
        ∧ Validate.Struct zeroCopiesRequest
            = some (GoError.validation [{ Field := "Copies", Tag := "required" }]))
      ∧ handlerV1.CreateBook
          { Service := (serviceMock.Service serviceOK).traced, Validate := Validate.Struct }
          copiesCodec { id := "", Body := "zero.json" } ((), [])
        = (http.Error
            (GoError.validation [{ Field := "Copies", Tag := "required" }]).Error 400, ((), [])))
    ∧ ((copiesCodec.Decode "one.json" = Except.ok { zeroCopiesRequest with Copies := 1 }
        ∧ Validate.Struct { zeroCopiesRequest with Copies := 1 } = none
        ∧ (serviceMock.Service serviceCreateErr).CreateBook
            { zeroCopiesRequest with Copies := 1 } () = (some (GoError.New "database error"), ()))
      ∧ handlerV1.CreateBook
          { Service := (serviceMock.Service serviceCreateErr).traced, Validate := Validate.Struct }
          copiesCodec { id := "", Body := "one.json" } ((), [])
        = (http.Error "database error" 500,
            ((), [ServiceCall.CreateBook { zeroCopiesRequest with Copies := 1 }])))
    ∧ ((serviceMock.Service serviceOK).CreateBook { zeroCopiesRequest with Copies := 1 } ()
          = (none, ())
      ∧ handlerV1.CreateBook
          { Service := (serviceMock.Service serviceOK).traced, Validate := Validate.Struct }
          copiesCodec { id := "", Body := "one.json" } ((), [])
        = ({ status := 201, contentType := none, body := Payload.empty },
            ((), [ServiceCall.CreateBook { zeroCopiesRequest with Copies := 1 }]))) :=
  ⟨⟨rfl, (C12_create_handler_status_order (serviceMock.Service serviceOK) Validate.Struct
      copiesCodec { id := "", Body := "garbage" } ()).1 _ rfl⟩,
   ⟨⟨rfl, by decide⟩, (C12_create_handler_status_order (serviceMock.Service serviceOK)
      Validate.Struct copiesCodec { id := "", Body := "zero.json" } ()).2.1 _ _ rfl
      (by decide)⟩,
   ⟨⟨rfl, by decide, rfl⟩, (C12_create_handler_status_order
      (serviceMock.Service serviceCreateErr) Validate.Struct copiesCodec
      { id := "", Body := "one.json" } ()).2.2.1 _ _ () rfl (by decide) rfl⟩,
   ⟨rfl, (C12_create_handler_status_order (serviceMock.Service serviceOK) Validate.Struct
      copiesCodec { id := "", Body := "one.json" } ()).2.2.2 _ () rfl (by decide) rfl⟩⟩

/-- C13: for a path variable that parses as an identifier, the update handler (given a
body that decodes and validates) and the delete handler map the outcome of the service
to a status: the sentinel `entities.ErrBookNotFound` gives 404, every other error
gives 500, each with the text of the error, and success gives 200 for update and 204
for delete with no header and no body written. -/
theorem C13_update_delete_status_mapping {σ : Type} (sv : Service σ)
    (v : BookRequest → Option GoError) (c : Codec) (r : Request) (s : σ) (id : UUID)
    (hid : c.FromString r.id = Except.ok id) :
    (∀ req : BookRequest, c.Decode r.Body = Except.ok req → v req = none →
      (∀ s1 : σ, sv.UpdateBook id req s = (some GoError.ErrBookNotFound, s1) →
        handlerV1.UpdateBook { Service := sv, Validate := v } c r s
          = (http.Error "book not found" 404, s1))
      ∧ (∀ (err : GoError) (s1 : σ), sv.UpdateBook id req s = (some err, s1) →
        err ≠ GoError.ErrBookNotFound →
        handlerV1.UpdateBook { Service := sv, Validate := v } c r s
          = (http.Error err.Error 500, s1))
      ∧ (∀ s1 : σ, sv.UpdateBook id req s = (none, s1) →
        handlerV1.UpdateBook { Service := sv, Validate := v } c r s
          = ({ status := 200, contentType := none, body := Payload.empty }, s1)))
    ∧ (∀ s1 : σ, sv.DeleteBook id s = (some GoError.ErrBookNotFound, s1) →
        handlerV1.DeleteBook { Service := sv, Validate := v } c r s
          = (http.Error "book not found" 404, s1))
    ∧ (∀ (err : GoError) (s1 : σ), sv.DeleteBook id s = (some err, s1) →
        err ≠ GoError.ErrBookNotFound →
        handlerV1.DeleteBook { Service := sv, Validate := v } c r s
          = (http.Error err.Error 500, s1))
    ∧ (∀ s1 : σ, sv.DeleteBook id s = (none, s1) →
        handlerV1.DeleteBook { Service := sv, Validate := v } c r s
          = ({ status := 204, contentType := none, body := Payload.empty }, s1)) := by
  refine ⟨?_, ?_, ?_, ?_⟩
  · intro req hdec hval
    refine ⟨?_, ?_, ?_⟩
    · intro s1 hsv
      simp [handlerV1.UpdateBook, hid, hdec, hval, hsv, GoError.Error]
    · intro err s1 hsv hne
      simp [handlerV1.UpdateBook, hid, hdec, hval, hsv, hne]
    · intro s1 hsv
      simp [handlerV1.UpdateBook, WriteHeader, hid, hdec, hval, hsv]
  · intro s1 hsv
    simp [handlerV1.DeleteBook, hid, hsv, GoError.Error]
  · intro err s1 hsv hne
    simp [handlerV1.DeleteBook, hid, hsv, hne]
  · intro s1 hsv
    simp [handlerV1.DeleteBook, WriteHeader, hid, hsv]

/-- Witness of C13 on service mocks that fail with the sentinel, fail with
`sql.ErrConnDone`, and succeed. -/
theorem C13_update_delete_status_mapping_witness :
    sampleCodec.FromString absentRequest.id
        = Except.ok ⟨143098242404177361603877621312831893704⟩
    ∧ (sampleCodec.Decode absentRequest.Body = Except.ok (updatedRequest 1700000000)
      ∧ Validate.Struct (updatedRequest 1700000000) = none)
    ∧ (handlerV1.UpdateBook (handlerV1.New (serviceMock.Service serviceNotFound)) sampleCodec
          absentRequest () = (http.Error "book not found" 404, ())
      ∧ handlerV1.UpdateBook (handlerV1.New (serviceMock.Service serviceDown)) sampleCodec
          absentRequest () = (http.Error "sql: connection is already closed" 500, ())
      ∧ handlerV1.UpdateBook (handlerV1.New (serviceMock.Service serviceOK)) sampleCodec
          absentRequest () = ({ status := 200, contentType := none, body := Payload.empty }, ()))
    ∧ (handlerV1.DeleteBook (handlerV1.New (serviceMock.Service serviceNotFound)) sampleCodec
          absentRequest () = (http.Error "book not found" 404, ())
      ∧ handlerV1.DeleteBook (handlerV1.New (serviceMock.Service serviceDown)) sampleCodec
          absentRequest () = (http.Error "sql: connection is already closed" 500, ())
      ∧ handlerV1.DeleteBook (handlerV1.New (serviceMock.Service serviceOK)) sampleCodec
          absentRequest () = ({ status := 204, contentType := none, body := Payload.empty }, ())) :=
  ⟨rfl, ⟨rfl, by decide⟩,
   ⟨((C13_update_delete_status_mapping (serviceMock.Service serviceNotFound) Validate.Struct
        sampleCodec absentRequest () _ rfl).1 _ rfl (by decide)).1 () rfl,
    ((C13_update_delete_status_mapping (serviceMock.Service serviceDown) Validate.Struct
        sampleCodec absentRequest () _ rfl).1 _ rfl (by decide)).2.1 sqlErrConnDone () rfl
        (by decide),
    ((C13_update_delete_status_mapping (serviceMock.Service serviceOK) Validate.Struct
        sampleCodec absentRequest () _ rfl).1 _ rfl (by decide)).2.2 () rfl⟩,
   ⟨(C13_update_delete_status_mapping (serviceMock.Service serviceNotFound) Validate.Struct
        sampleCodec absentRequest () _ rfl).2.1 () rfl,
    (C13_update_delete_status_mapping (serviceMock.Service serviceDown) Validate.Struct
        sampleCodec absentRequest () _ rfl).2.2.1 sqlErrConnDone () rfl (by decide),
    (C13_update_delete_status_mapping (serviceMock.Service serviceOK) Validate.Struct
        sampleCodec absentRequest () _ rfl).2.2.2 () rfl⟩⟩

/-- C14: storage `Update` hands to the store's save the entity as given with
`UpdatedAt` set to the reading of the clock (identifier, creation timestamp and the
descriptive fields are untouched), makes that one call, and returns the store's error
when the save fails, the error `book not found` when the save goes through with zero
rows affected, and nil when at least one row was affected. -/
theorem C14_update_refreshes_timestamp_and_classifies {δ : Type} (g : DB δ) (b : Book)
    (w : Env δ) :
    (book.Update g.traced b w.journaled).2.db.2
        = [DBCall.Save { b with UpdatedAt := w.clock w.clockReads }]
    ∧ (∀ e : GoError,
        (g.Save { b with UpdatedAt := w.clock w.clockReads } w.db).1.Error = some e →
        (book.Update g b w).1 = some e)
    ∧ ((g.Save { b with UpdatedAt := w.clock w.clockReads } w.db).1.Error = none →
        (g.Save { b with UpdatedAt := w.clock w.clockReads } w.db).1.RowsAffected = 0 →
        (book.Update g b w).1 = some (GoError.New "book not found"))
    ∧ ((g.Save { b with UpdatedAt := w.clock w.clockReads } w.db).1.Error = none →
        1 ≤ (g.Save { b with UpdatedAt := w.clock w.clockReads } w.db).1.RowsAffected →
        (book.Update g b w).1 = none) := by
  refine ⟨?_, ?_, ?_, ?_⟩
  · simp only [book.Update, DB.traced, Env.journaled, timeNow]
    cases h : (g.Save { b with UpdatedAt := w.clock w.clockReads } w.db).1.Error
    · by_cases h0 : (g.Save { b with UpdatedAt := w.clock w.clockReads } w.db).1.RowsAffected = 0
        <;> simp [h, h0]
    · simp [h]
  · intro e he
    simp [book.Update, timeNow, he]
  · intro he h0
    simp [book.Update, timeNow, he, h0]
  · intro he h1
    have hne : (g.Save { b with UpdatedAt := w.clock w.clockReads } w.db).1.RowsAffected ≠ 0 := by
      omega
    simp [book.Update, timeNow, he, hne]

/-- Witness of C14: a closed connection, a save that goes through with zero rows
affected as `Test_book_Update` prepares it, and the identifier of an existing row. -/
theorem C14_update_refreshes_timestamp_and_classifies_witness :
    ((downDB.Save { existingBook ⟨7⟩ 1700000000 with UpdatedAt := 1000 } ()).1.Error
        = some sqlErrConnDone
      ∧ (book.Update downDB (existingBook ⟨7⟩ 1700000000) downEnv).1 = some sqlErrConnDone)
    ∧ ((((sqlmockDB (Result.rows 0)).Save { strangerBook with UpdatedAt := 1000 } ()).1.Error
          = none
        ∧ ((sqlmockDB (Result.rows 0)).Save { strangerBook with UpdatedAt := 1000 }
            ()).1.RowsAffected = 0)
      ∧ (book.Update (sqlmockDB (Result.rows 0)) strangerBook downEnv).1
          = some (GoError.New "book not found"))
    ∧ (((memDB.Save { existingBook ⟨7⟩ 1700000000 with UpdatedAt := 2000 }
            [existingBook ⟨7⟩ 1700000000]).1.Error = none
        ∧ 1 ≤ (memDB.Save { existingBook ⟨7⟩ 1700000000 with UpdatedAt := 2000 }
            [existingBook ⟨7⟩ 1700000000]).1.RowsAffected)
      ∧ (book.Update memDB (existingBook ⟨7⟩ 1700000000) oneBookEnv).1 = none) :=
  ⟨⟨rfl, (C14_update_refreshes_timestamp_and_classifies downDB (existingBook ⟨7⟩ 1700000000)
      downEnv).2.1 sqlErrConnDone rfl⟩,
   ⟨⟨rfl, rfl⟩, (C14_update_refreshes_timestamp_and_classifies (sqlmockDB (Result.rows 0))
      strangerBook downEnv).2.2.1 rfl rfl⟩,
   ⟨⟨by decide, by decide⟩, (C14_update_refreshes_timestamp_and_classifies memDB
      (existingBook ⟨7⟩ 1700000000) oneBookEnv).2.2.2 (by decide) (by decide)⟩⟩

/-- C15: storage `Delete` makes one delete call on the store and returns the store's
error when the statement fails, the error `book not found` when it goes through with
zero rows affected, and nil otherwise, so it fails exactly when the store failed or
nothing was removed; service `DeleteBook` makes exactly one call on storage, that
`Delete`, and returns its result unchanged. -/
theorem C15_delete_fails_iff_store_failed_or_nothing_removed {δ σ : Type} (g : DB δ)
    (m : BookModel σ) (id : UUID) (w : Env δ) (s : σ) :
    (book.Delete g.traced id w.journaled).2.db.2 = [DBCall.Delete id]
    ∧ (∀ e : GoError, (g.Delete id w.db).1.Error = some e → (book.Delete g id w).1 = some e)
    ∧ ((g.Delete id w.db).1.Error = none → (g.Delete id w.db).1.RowsAffected = 0 →
        (book.Delete g id w).1 = some (GoError.New "book not found"))
    ∧ ((g.Delete id w.db).1.Error = none → (g.Delete id w.db).1.RowsAffected ≠ 0 →
        (book.Delete g id w).1 = none)
    ∧ ((book.Delete g id w).1 ≠ none ↔
        ((g.Delete id w.db).1.Error ≠ none ∨ (g.Delete id w.db).1.RowsAffected = 0))
    ∧ service.DeleteBook m.traced id (s, [])
        = ((m.Delete id s).1, ((m.Delete id s).2, [ModelCall.Delete id]))
    ∧ service.DeleteBook m id s = m.Delete id s := by
  refine ⟨?_, ?_, ?_, ?_, ?_, ?_, ?_⟩
  · simp only [book.Delete, DB.traced, Env.journaled]
    cases h : (g.Delete id w.db).1.Error
    · by_cases h0 : (g.Delete id w.db).1.RowsAffected = 0 <;> simp [h, h0]
    · simp [h]
  · intro e he
    simp [book.Delete, he]
  · intro he h0
    simp [book.Delete, he, h0]
  · intro he h0
    simp [book.Delete, he, h0]
  · cases h : (g.Delete id w.db).1.Error
    · by_cases h0 : (g.Delete id w.db).1.RowsAffected = 0 <;> simp [book.Delete, h, h0]
    · simp [book.Delete, h]
  · simp only [service.DeleteBook, BookModel.traced]
    cases h : (m.Delete id s).1 <;> simp [h]
  · simp only [service.DeleteBook]
    cases h : (m.Delete id s).1 <;> exact Prod.ext (by simp [h]) rfl

/-- Witness of C15: a closed connection, an identifier without a row, and the
identifier of an existing row. -/
theorem C15_delete_fails_iff_store_failed_or_nothing_removed_witness :
    ((downDB.Delete ⟨7⟩ ()).1.Error = some sqlErrConnDone
      ∧ (book.Delete downDB ⟨7⟩ downEnv).1 = some sqlErrConnDone)
    ∧ (((memDB.Delete ⟨8⟩ [existingBook ⟨7⟩ 1700000000]).1.Error = none
        ∧ (memDB.Delete ⟨8⟩ [existingBook ⟨7⟩ 1700000000]).1.RowsAffected = 0)
      ∧ (book.Delete memDB ⟨8⟩ oneBookEnv).1 = some (GoError.New "book not found"))
    ∧ (((memDB.Delete ⟨7⟩ [existingBook ⟨7⟩ 1700000000]).1.Error = none
        ∧ (memDB.Delete ⟨7⟩ [existingBook ⟨7⟩ 1700000000]).1.RowsAffected ≠ 0)
      ∧ (book.Delete memDB ⟨7⟩ oneBookEnv).1 = none
      ∧ (book.Delete memDB ⟨7⟩ oneBookEnv).2.db = []) :=
  ⟨⟨rfl, (C15_delete_fails_iff_store_failed_or_nothing_removed downDB
      (bookMock.Book successReturns) ⟨7⟩ downEnv ()).2.1 sqlErrConnDone rfl⟩,
   ⟨⟨rfl, by decide⟩, (C15_delete_fails_iff_store_failed_or_nothing_removed memDB
      (bookMock.Book successReturns) ⟨8⟩ oneBookEnv ()).2.2.1 rfl (by decide)⟩,
   ⟨⟨rfl, by decide⟩, (C15_delete_fails_iff_store_failed_or_nothing_removed memDB
      (bookMock.Book successReturns) ⟨7⟩ oneBookEnv ()).2.2.2.1 rfl (by decide), by decide⟩⟩

/-- C16: storage `GetByID` makes one query on the store and classifies its outcome:
when the store's error is `gorm.ErrRecordNotFound` (or wraps it) it returns no record
and the error `book not found`; when the store fails in any other way it returns no
record and that error unchanged; when the query goes through it returns the record
found and no error. -/
theorem C16_get_by_id_classifies_failures {δ : Type} (g : DB δ) (id : UUID) (w : Env δ) :
    (book.GetByID g.traced id w.journaled).2.db.2 = [DBCall.First id]
    ∧ (∀ e : GoError, (g.First id w.db).1.2.Error = some e →
        errorsIs e GoError.ErrRecordNotFound = true →
        (book.GetByID g id w).1 = Except.error (GoError.New "book not found"))
    ∧ (∀ e : GoError, (g.First id w.db).1.2.Error = some e →
        errorsIs e GoError.ErrRecordNotFound = false →
        (book.GetByID g id w).1 = Except.error e)
    ∧ ((g.First id w.db).1.2.Error = none →
        (book.GetByID g id w).1 = Except.ok (g.First id w.db).1.1) := by
  refine ⟨?_, ?_, ?_, ?_⟩
  · simp only [book.GetByID, DB.traced, Env.journaled]
    cases h : (g.First id w.db).1.2.Error with
    | none => simp [h]
    | some e => by_cases hi : errorsIs e GoError.ErrRecordNotFound = true <;> simp [h, hi]
  · intro e he hi
    simp [book.GetByID, he, hi]
  · intro e he hi
    simp [book.GetByID, he, hi]
  · intro he
    simp [book.GetByID, he]

/-- Witness of C16: an identifier without a row, a closed connection, and the
identifier of an existing row. -/
theorem C16_get_by_id_classifies_failures_witness :
    (((memDB.First ⟨8⟩ [existingBook ⟨7⟩ 1700000000]).1.2.Error
          = some GoError.ErrRecordNotFound
        ∧ errorsIs GoError.ErrRecordNotFound GoError.ErrRecordNotFound = true)
      ∧ (book.GetByID memDB ⟨8⟩ oneBookEnv).1 = Except.error (GoError.New "book not found"))
    ∧ (((downDB.First ⟨7⟩ ()).1.2.Error = some sqlErrConnDone
        ∧ errorsIs sqlErrConnDone GoError.ErrRecordNotFound = false)
      ∧ (book.GetByID downDB ⟨7⟩ downEnv).1 = Except.error sqlErrConnDone)
    ∧ ((memDB.First ⟨7⟩ [existingBook ⟨7⟩ 1700000000]).1.2.Error = none
      ∧ (book.GetByID memDB ⟨7⟩ oneBookEnv).1 = Except.ok (existingBook ⟨7⟩ 1700000000)) :=
  ⟨⟨⟨rfl, rfl⟩, (C16_get_by_id_classifies_failures memDB ⟨8⟩ oneBookEnv).2.1
      GoError.ErrRecordNotFound rfl rfl⟩,
   ⟨⟨rfl, rfl⟩, (C16_get_by_id_classifies_failures downDB ⟨7⟩ downEnv).2.2.1
      sqlErrConnDone rfl rfl⟩,
   ⟨rfl, (C16_get_by_id_classifies_failures memDB ⟨7⟩ oneBookEnv).2.2.2 rfl⟩⟩

/-- One element of the slice literal evaluates without a panic when the generator
succeeds and the date text parses. -/
theorem seedBook_ret {δ : Type} (e : SeedEntry) (w : Env δ) (t : Time)
    (hid : (w.uuids w.uuidReads).2 = none) (hdate : timeParse e.PublishDate = Except.ok t) :
    seedBook e w
      = Run.ret
          ({ ID := (w.uuids w.uuidReads).1, Title := e.Title, Author := e.Author,
             ISBN := e.ISBN, Publisher := e.Publisher, PublishDate := parsedDate e.PublishDate,
             Description := e.Description, Copies := e.Copies,
             CreatedAt := w.clock w.clockReads, UpdatedAt := w.clock (w.clockReads + 1),
             DeletedAt := 0 },
           { w with uuidReads := w.uuidReads + 1, clockReads := w.clockReads + 2 }) := by
  simp [seedBook, mustGenerateUUID, uuidNewV4, parseDate, parsedDate, timeNow, hid, hdate]

/-- The slice literal evaluates without a panic, to the entities `seedExpected` lists,
when the generator succeeds on its next calls and every date text parses. -/
theorem seedLiteral_ret {δ : Type} (es : List SeedEntry) :
    ∀ w : Env δ, (∀ i, i < es.length → (w.uuids (w.uuidReads + i)).2 = none) →
      (∀ e ∈ es, ∃ t, timeParse e.PublishDate = Except.ok t) →
      seedLiteral es w
        = Run.ret
            (seedExpected w.uuids w.clock es w.uuidReads w.clockReads,
             { w with uuidReads := w.uuidReads + es.length,
                      clockReads := w.clockReads + 2 * es.length }) := by
  induction es with
  | nil => intro w _ _; rfl
  | cons e es ih =>
    intro w hids hdates
    obtain ⟨t, ht⟩ := hdates e (List.mem_cons_self e es)
    have h0 : (w.uuids w.uuidReads).2 = none := by simpa using hids 0 (by simp)
    have hrest := ih { w with uuidReads := w.uuidReads + 1, clockReads := w.clockReads + 2 }
      (fun i hi => by
        have := hids (i + 1) (by simpa using hi)
        simpa [Nat.add_assoc, Nat.add_comm 1 i] using this)
      (fun e1 he1 => hdates e1 (List.mem_cons_of_mem e he1))
    simp only [seedLiteral, seedBook_ret e w t h0 ht, hrest, seedExpected, List.length_cons]
    congr 2
    simp only [Nat.mul_add, Nat.add_assoc, Nat.add_comm 1, Nat.mul_one, Nat.add_comm 2]

/-- Every publish-date text of the seed set parses. -/
theorem seedEntries_dates_parse :
    ∀ e ∈ seedEntries, ∃ t, timeParse e.PublishDate = Except.ok t := by
  intro e he
  simp only [seedEntries, List.mem_cons, List.mem_singleton, List.not_mem_nil, or_false] at he
  rcases he with rfl | rfl | rfl | rfl | rfl <;> exact ⟨_, rfl⟩

/-- When the count goes through and is positive, `seedBooks` prints that it skips and
returns nil after that one call. -/
theorem seedBooks_skip {δ : Type} (g : DB δ) (w : Env δ)
    (hE : (g.Count w.db).1.2.Error = none) (hn : 0 < (g.Count w.db).1.1) :
    seedBooks g w
      = Run.ret
          { err := none, stdout := ["Books table already has data, skipping seed\n"],
            env := { w with db := (g.Count w.db).2 } } := by
  simp [seedBooks, hE, hn]

/-- When the count goes through and is zero and the generator succeeds five times,
`seedBooks` hands the five entities of the literal to the store in one batch and
returns the error of that insert. -/
theorem seedBooks_insert {δ : Type} (g : DB δ) (w : Env δ)
    (hE : (g.Count w.db).1.2.Error = none) (hn : (g.Count w.db).1.1 = 0)
    (hids : ∀ i, i < 5 → (w.uuids (w.uuidReads + i)).2 = none) :
    seedBooks g w
      = Run.ret
          { err := (g.CreateAll (seedExpected w.uuids w.clock seedEntries w.uuidReads w.clockReads)
                      (g.Count w.db).2).1.Error,
            stdout :=
              match (g.CreateAll
                  (seedExpected w.uuids w.clock seedEntries w.uuidReads w.clockReads)
                  (g.Count w.db).2).1.Error with
              | some _ => []
              | none => ["Seeded 5 books successfully\n"],
            env :=
              { w with
                db := (g.CreateAll
                  (seedExpected w.uuids w.clock seedEntries w.uuidReads w.clockReads)
                  (g.Count w.db).2).2,
                uuidReads := w.uuidReads + 5, clockReads := w.clockReads + 10 } } := by
  have hlit := seedLiteral_ret seedEntries { w with db := (g.Count w.db).2 }
    (fun i hi => hids i (by simpa [seedEntries] using hi)) seedEntries_dates_parse
  have hlen : seedEntries.length = 5 := rfl
  simp only [hlen] at hlit
  simp only [seedBooks, hE, hn, hlit]
  cases hc : (g.CreateAll (seedExpected w.uuids w.clock seedEntries w.uuidReads w.clockReads)
      (g.Count w.db).2).1.Error
  · simp only [hc, seedExpected, seedEntries, List.length_cons, List.length_nil]
    rfl
  · simp [hc]

/-- What `SeedData` makes of the return of `seedBooks`: it wraps an error and, on
nil, prints its closing line. -/
theorem SeedData_ret {δ : Type} (g : DB δ) (w : Env δ) (r : Seeded δ)
    (h : seedBooks g w = Run.ret r) :
    SeedData g w
      = Run.ret
          (match r.err with
           | some err => { r with err := some (GoError.wrap "error seeding books" err) }
           | none =>
             { r with stdout := r.stdout ++ ["Database seeding completed successfully\n"] }) := by
  simp only [SeedData, h]
  cases r.err <;> rfl

/-- C17: seeding is idempotent.  On a store whose count is positive, `SeedData` makes
the count and no insert and returns nil.  On a store whose count is zero (with a
generator that succeeds) it makes the count and one batch insert of the five entities
of the literal, which carry the title, author, ISBN, publisher, publish date,
description and copies of the five reference entries, and it returns nil exactly when
the store accepts the batch.  Hence, when the store accepts the batch and then counts
a positive number of rows without changing, a second run makes no insert, returns nil
and leaves the store as the first run left it. -/
theorem C17_seeding_is_idempotent {δ : Type} (g : DB δ) (w : Env δ) :
    ((g.Count w.db).1.2.Error = none → 0 < (g.Count w.db).1.1 →
      SeedData g.traced w.journaled
        = Run.ret
            { err := none,
              stdout := ["Books table already has data, skipping seed\n",
                         "Database seeding completed successfully\n"],
              env := { w.journaled with db := ((g.Count w.db).2, [DBCall.Count]) } })
    ∧ ((g.Count w.db).1.2.Error = none → (g.Count w.db).1.1 = 0 →
      (∀ i, i < 5 → (w.uuids (w.uuidReads + i)).2 = none) →
      ∃ r : Seeded (δ × List DBCall),
        SeedData g.traced w.journaled = Run.ret r
        ∧ r.env.db = (afterSeed g w, [DBCall.Count, DBCall.CreateAll (seedBatch w)])
        ∧ (r.err = none ↔ (g.CreateAll (seedBatch w) (g.Count w.db).2).1.Error = none))
    ∧ ((seedBatch w).length = 5
      ∧ (seedBatch w).map (fun b =>
            (b.Title, b.Author, b.ISBN, b.Publisher, b.PublishDate, b.Description, b.Copies))
          = seedEntries.map (fun e =>
            (e.Title, e.Author, e.ISBN, e.Publisher, parsedDate e.PublishDate, e.Description,
              e.Copies)))
    ∧ ((g.Count w.db).1.2.Error = none → (g.Count w.db).1.1 = 0 →
      (∀ i, i < 5 → (w.uuids (w.uuidReads + i)).2 = none) →
      (g.CreateAll (seedBatch w) (g.Count w.db).2).1.Error = none →
      (g.Count (afterSeed g w)).1.2.Error = none → 0 < (g.Count (afterSeed g w)).1.1 →
      (g.Count (afterSeed g w)).2 = afterSeed g w →
      ∃ r1 : Seeded δ, ∃ r2 : Seeded (δ × List DBCall),
        SeedData g w = Run.ret r1 ∧ r1.err = none ∧ r1.env.db = afterSeed g w
        ∧ SeedData g.traced r1.env.journaled = Run.ret r2 ∧ r2.err = none
        ∧ r2.env.db = (afterSeed g w, [DBCall.Count])) := by
  refine ⟨?_, ?_, ⟨rfl, rfl⟩, ?_⟩
  · intro hE hn
    exact SeedData_ret _ _ _ (seedBooks_skip g.traced w.journaled hE hn)
  · intro hE hn hids
    have h := seedBooks_insert g.traced w.journaled hE hn hids
    have hC : g.traced.CreateAll
        (seedExpected w.journaled.uuids w.journaled.clock seedEntries w.journaled.uuidReads
          w.journaled.clockReads) (g.traced.Count w.journaled.db).2
        = ((g.CreateAll (seedBatch w) (g.Count w.db).2).1,
            (afterSeed g w, [DBCall.Count, DBCall.CreateAll (seedBatch w)])) := rfl
    rw [hC] at h
    cases hc : (g.CreateAll (seedBatch w) (g.Count w.db).2).1.Error with
    | none =>
      simp only [hc] at h
      exact ⟨_, SeedData_ret _ _ _ h, rfl, by simp⟩
    | some e =>
      simp only [hc] at h
      exact ⟨_, SeedData_ret _ _ _ h, rfl, by simp⟩
  · intro hE hn hids hacc hE2 hn2 hsame
    have h1 := seedBooks_insert g w hE hn hids
    have hacc1 : (g.CreateAll
        (seedExpected w.uuids w.clock seedEntries w.uuidReads w.clockReads)
        (g.Count w.db).2).1.Error = none := hacc
    simp only [hacc1] at h1
    have h2 := seedBooks_skip g.traced
      (Env.journaled
        { w with db := afterSeed g w, uuidReads := w.uuidReads + 5,
                 clockReads := w.clockReads + 10 }) hE2 hn2
    refine ⟨_, _, SeedData_ret _ _ _ h1, rfl, rfl, SeedData_ret _ _ _ h2, rfl, ?_⟩
    simp [DB.traced, Env.journaled, hsame]

/-- Witness of C17 on the in-memory table: a table that holds a book is left alone,
and two runs from the empty table leave the five rows of the first run. -/
theorem C17_seeding_is_idempotent_witness :
    (((memDB.Count oneBookEnv.db).1.2.Error = none ∧ 0 < (memDB.Count oneBookEnv.db).1.1)
      ∧ SeedData memDB.traced oneBookEnv.journaled
        = Run.ret
            { err := none,
              stdout := ["Books table already has data, skipping seed\n",
                         "Database seeding completed successfully\n"],
              env := { oneBookEnv.journaled with
                        db := ((memDB.Count oneBookEnv.db).2, [DBCall.Count]) } })
    ∧ (((memDB.Count emptyEnv.db).1.2.Error = none ∧ (memDB.Count emptyEnv.db).1.1 = 0
        ∧ (∀ i, i < 5 → (emptyEnv.uuids (emptyEnv.uuidReads + i)).2 = none)
        ∧ (memDB.CreateAll (seedBatch emptyEnv) (memDB.Count emptyEnv.db).2).1.Error = none
        ∧ (memDB.Count (afterSeed memDB emptyEnv)).1.2.Error = none
        ∧ 0 < (memDB.Count (afterSeed memDB emptyEnv)).1.1
        ∧ (memDB.Count (afterSeed memDB emptyEnv)).2 = afterSeed memDB emptyEnv)
      ∧ ∃ r1 : Seeded (List Book), ∃ r2 : Seeded (List Book × List DBCall),
        SeedData memDB emptyEnv = Run.ret r1 ∧ r1.err = none
        ∧ r1.env.db = afterSeed memDB emptyEnv
        ∧ SeedData memDB.traced r1.env.journaled = Run.ret r2 ∧ r2.err = none
        ∧ r2.env.db = (afterSeed memDB emptyEnv, [DBCall.Count]))
    ∧ (afterSeed memDB emptyEnv = seedBatch emptyEnv
      ∧ (afterSeed memDB emptyEnv).map Book.ISBN
          = ["9780061120084", "9780451524935", "9780743273565", "9780141439518",
             "9780547928227"]
      ∧ (afterSeed memDB emptyEnv).map Book.ID = [⟨1⟩, ⟨2⟩, ⟨3⟩, ⟨4⟩, ⟨5⟩]) :=
  ⟨⟨⟨rfl, by decide⟩, (C17_seeding_is_idempotent memDB oneBookEnv).1 rfl (by decide)⟩,
   ⟨⟨rfl, by decide, fun _ _ => rfl, by decide, rfl, by decide, rfl⟩,
    (C17_seeding_is_idempotent memDB emptyEnv).2.2.2 rfl (by decide) (fun _ _ => rfl)
      (by decide) rfl (by decide) rfl⟩,
   ⟨by decide, by decide, by decide⟩⟩

/-- C18: the list handler answers 200 with the sequence of the service handed to the
JSON encoder whenever `GetAllBooks` succeeds, and 500 with the text of the error
whenever it fails.  Composed with the service over a storage component that returns no
record, the answer is 200 and the value encoded is an empty, non-nil sequence, which
the encoder writes as an empty array and not as null. -/
theorem C18_list_handler_statuses {σ : Type} (sv : Service σ) (m : BookModel σ)
    (v : BookRequest → Option GoError) (s : σ) :
    (∀ (books : Slice (Option BookResponse)) (s1 : σ),
      sv.GetAllBooks s = (Except.ok books, s1) →
      handlerV1.GetAllBooks { Service := sv, Validate := v } s
        = ({ status := 200, contentType := some "application/json",
             body := Payload.jsonBooks books }, s1))
    ∧ (∀ (err : GoError) (s1 : σ), sv.GetAllBooks s = (Except.error err, s1) →
      handlerV1.GetAllBooks { Service := sv, Validate := v } s
        = (http.Error err.Error 500, s1))
    ∧ (∀ (books : Slice Book) (s1 : σ), m.GetAll s = (Except.ok books, s1) →
      Slice.len books = 0 →
      handlerV1.GetAllBooks { Service := service.New m, Validate := v } s
        = ({ status := 200, contentType := some "application/json",
             body := Payload.jsonBooks (some []) }, s1))
    ∧ (∀ enc : Option BookResponse → String,
      jsonEncodeSlice enc (some []) = "[]\n"
      ∧ jsonEncodeSlice enc (some []) ≠ jsonEncodeSlice enc none) := by
  refine ⟨?_, ?_, ?_, ?_⟩
  · intro books s1 hsv
    simp [handlerV1.GetAllBooks, hsv]
  · intro err s1 hsv
    simp [handlerV1.GetAllBooks, hsv]
  · intro books s1 hall h0
    have he : Slice.elems books = [] := by
      rw [Slice.len_eq_length_elems] at h0
      exact List.length_eq_zero.mp h0
    simp [handlerV1.GetAllBooks, service.New, service.GetAllBooks, hall, h0, he]
  · intro enc
    constructor
    · rfl
    · show ("[]\n" : String) ≠ "null\n"
      decide

/-- Witness of C18: a service mock that succeeds, one that fails, and the whole
request path over the empty in-memory table. -/
theorem C18_list_handler_statuses_witness :
    ((serviceMock.Service serviceOK).GetAllBooks () = (Except.ok (some []), ())
      ∧ handlerV1.GetAllBooks (handlerV1.New (serviceMock.Service serviceOK)) ()
        = ({ status := 200, contentType := some "application/json",
             body := Payload.jsonBooks (some []) }, ()))
    ∧ ((serviceMock.Service serviceListErr).GetAllBooks ()
          = (Except.error (GoError.New "db error"), ())
      ∧ handlerV1.GetAllBooks (handlerV1.New (serviceMock.Service serviceListErr)) ()
        = (http.Error "db error" 500, ()))
    ∧ (((book.New memDB).GetAll emptyEnv = (Except.ok (some []), emptyEnv)
        ∧ Slice.len (some ([] : List Book)) = 0)
      ∧ handlerV1.GetAllBooks (stack memDB) emptyEnv
        = ({ status := 200, contentType := some "application/json",
             body := Payload.jsonBooks (some []) }, emptyEnv)) :=
  ⟨⟨rfl, (C18_list_handler_statuses (serviceMock.Service serviceOK)
      (bookMock.Book successReturns) Validate.Struct ()).1 _ () rfl⟩,
   ⟨rfl, (C18_list_handler_statuses (serviceMock.Service serviceListErr)
      (bookMock.Book successReturns) Validate.Struct ()).2.1 _ () rfl⟩,
   ⟨⟨rfl, rfl⟩, (C18_list_handler_statuses (service.New (book.New memDB)) (book.New memDB)
      Validate.Struct emptyEnv).2.2.1 (some []) emptyEnv rfl rfl⟩⟩

/-- C19: the fixed seed set is a valid catalog.  It has five entries; their ISBNs are
pairwise distinct; every entry has a non-empty title, author, ISBN and publisher and at
least one copy; each publish-date text parses under the layout `2006-01-02`, to
midnight of the day it spells, so `parseDate` returns on each of them; and with a
generator that succeeds the evaluation of the slice literal in `seedBooks` returns
without a panic. -/
theorem C19_seed_set_is_valid_catalog {δ : Type} (w : Env δ) :
    seedEntries.length = 5
    ∧ (seedEntries.map SeedEntry.ISBN).Nodup
    ∧ (∀ e ∈ seedEntries,
        e.Title ≠ "" ∧ e.Author ≠ "" ∧ e.ISBN ≠ "" ∧ e.Publisher ≠ "" ∧ 1 ≤ e.Copies)
    ∧ seedEntries.map (fun e => timeParse e.PublishDate)
        = [Except.ok (timeDate 1960 7 11), Except.ok (timeDate 1949 6 8),
           Except.ok (timeDate 1925 4 10), Except.ok (timeDate 1813 1 28),
           Except.ok (timeDate 1937 9 21)]
    ∧ (∀ e ∈ seedEntries, parseDate e.PublishDate = Run.ret (parsedDate e.PublishDate))
    ∧ ((∀ i, i < 5 → (w.uuids (w.uuidReads + i)).2 = none) →
        seedLiteral seedEntries w
          = Run.ret
              (seedBatch w,
               { w with uuidReads := w.uuidReads + 5, clockReads := w.clockReads + 10 })) := by
  refine ⟨rfl, by decide, by decide, rfl, ?_, ?_⟩
  · intro e he
    obtain ⟨t, ht⟩ := seedEntries_dates_parse e he
    simp [parseDate, parsedDate, ht]
  · intro hids
    exact seedLiteral_ret seedEntries w (fun i hi => hids i (by simpa [seedEntries] using hi))
      seedEntries_dates_parse

/-- Witness of C19 on the first entry of the seed set and on the environment over the
empty in-memory table. -/
theorem C19_seed_set_is_valid_catalog_witness :
    (({ Title := "To Kill a Mockingbird", Author := "Harper Lee", ISBN := "9780061120084",
        Publisher := "HarperCollins", PublishDate := "1960-07-11",
        Description := "The unforgettable novel of a childhood in a sleepy Southern town and the crisis of conscience that rocked it.",
        Copies := 10 } : SeedEntry) ∈ seedEntries
      ∧ parseDate "1960-07-11" = Run.ret (parsedDate "1960-07-11")
      ∧ parsedDate "1960-07-11" = 61836566400000000000)
    ∧ ((∀ i, i < 5 → (emptyEnv.uuids (emptyEnv.uuidReads + i)).2 = none)
      ∧ seedLiteral seedEntries emptyEnv
          = Run.ret
              (seedBatch emptyEnv,
               { emptyEnv with uuidReads := emptyEnv.uuidReads + 5,
                               clockReads := emptyEnv.clockReads + 10 })) :=
  ⟨⟨List.mem_cons_self _ _,
    (C19_seed_set_is_valid_catalog emptyEnv).2.2.2.2.1 _ (List.mem_cons_self _ _), by decide⟩,
   ⟨fun _ _ => rfl, (C19_seed_set_is_valid_catalog emptyEnv).2.2.2.2.2 (fun _ _ => rfl)⟩⟩

end Library
